import Mathlib

/-!
Verification of the Plivo stream SDK connection lifecycle, event dispatcher,
schema layer and outbound command builder, shallowly embedded from the
TypeScript sources (`PlivoWebSocketServer` and the zod event schemas).
-/

set_option autoImplicit false

namespace PlivoStream

/-! ## JSON values

A decoded-JSON value, as handed to `handleIncomingEvent` after `JSON.parse`.
Numbers are modelled as integers (every payload the claims exercise is
integral). -/

inductive Json where
  | null : Json
  | bool (b : Bool) : Json
  | num (n : Int) : Json
  | str (s : String) : Json
  | arr (xs : List Json) : Json
  | obj (fields : List (String × Json)) : Json

/-- Property access `value[key]` on a decoded JSON value: `some v` when the
value is an object that has the key, `none` (JS `undefined`) otherwise. -/
def Json.getField : Json → String → Option Json
  | .obj fields, k => (fields.find? (fun p => p.1 = k)).map (·.2)
  | _, _ => none

/-! ## Event schema layer (from `types.ts`)

The zod schemas are embedded as total validators `Json → Except String _`.
`z.uuid()` (zod 4) accepts RFC 9562 UUIDs: `8-4-4-4-12` hex groups with a
version nibble in `1`–`8` and a variant nibble in `8,9,a,b` (case
insensitive), plus the all-zero and all-`f` special forms. -/

def isHexDigit (c : Char) : Bool :=
  ('0' ≤ c && c ≤ '9') || ('a' ≤ c && c ≤ 'f') || ('A' ≤ c && c ≤ 'F')

def isUuid (s : String) : Bool :=
  let cs := s.toList
  decide (cs.length = 36) &&
  ([8, 13, 18, 23].all fun i => cs.getD i ' ' = '-') &&
  ((List.range 36).all fun i =>
    decide (i = 8 ∨ i = 13 ∨ i = 18 ∨ i = 23) || isHexDigit (cs.getD i ' ')) &&
  ((('1' ≤ cs.getD 14 ' ' && cs.getD 14 ' ' ≤ '8') &&
    [ '8', '9', 'a', 'b', 'A', 'B'].any fun c => cs.getD 19 ' ' = c) ||
   decide (s = "00000000-0000-0000-0000-000000000000") ||
   decide (s = "ffffffff-ffff-ffff-ffff-ffffffffffff"))

structure MediaFormat where
  encoding : String
  sampleRate : Int
deriving DecidableEq, Repr

structure StartEventData where
  callId : String
  streamId : String
  accountId : String
  tracks : List String
  mediaFormat : MediaFormat
deriving DecidableEq, Repr

structure StartEvent where
  sequenceNumber : Int
  start : StartEventData
  extra_headers : String
deriving DecidableEq, Repr

structure MediaEventData where
  track : String
  timestamp : String
  chunk : Int
  payload : String
deriving DecidableEq, Repr

structure MediaEvent where
  sequenceNumber : Int
  streamId : String
  media : MediaEventData
  extra_headers : String
deriving DecidableEq, Repr

structure DTMFEventData where
  track : String
  digit : String
  timestamp : String
deriving DecidableEq, Repr

structure DTMFEvent where
  sequenceNumber : Int
  streamId : String
  dtmf : DTMFEventData
  extra_headers : String
deriving DecidableEq, Repr

structure PlayedStreamEvent where
  sequenceNumber : Int
  streamId : String
  name : String
deriving DecidableEq, Repr

structure ClearedAudioEvent where
  sequenceNumber : Int
  streamId : String
deriving DecidableEq, Repr

/-! Field validators. Each mirrors one zod field check; the error string names
the offending field. -/

def asString (path : String) : Option Json → Except String String
  | some (.str s) => .ok s
  | _ => .error (path ++ ": expected string")

def asNumber (path : String) : Option Json → Except String Int
  | some (.num n) => .ok n
  | _ => .error (path ++ ": expected number")

def asUuid (path : String) : Option Json → Except String String
  | some (.str s) =>
      if isUuid s then .ok s else .error (path ++ ": invalid UUID")
  | _ => .error (path ++ ": expected string")

def asLiteralStr (path lit : String) : Option Json → Except String String
  | some (.str s) =>
      if s = lit then .ok s
      else .error (path ++ ": expected literal " ++ lit)
  | _ => .error (path ++ ": expected literal " ++ lit)

def asStringList (path : String) : Option Json → Except String (List String)
  | some (.arr xs) =>
      xs.mapM fun x =>
        match x with
        | .str s => .ok s
        | _ => .error (path ++ ": expected array of strings")
  | _ => .error (path ++ ": expected array")

/-- `StartEventSchema.parse` from `types.ts`. -/
def StartEventSchema.parse (j : Json) : Except String StartEvent := do
  let _ ← asLiteralStr "event" "start" (j.getField "event")
  let seq ← asNumber "sequenceNumber" (j.getField "sequenceNumber")
  let callId ← asUuid "start.callId"
    (((j.getField "start").getD .null).getField "callId")
  let streamId ← asUuid "start.streamId"
    (((j.getField "start").getD .null).getField "streamId")
  let accountId ← asString "start.accountId"
    (((j.getField "start").getD .null).getField "accountId")
  let tracks ← asStringList "start.tracks"
    (((j.getField "start").getD .null).getField "tracks")
  let encoding ← asString "start.mediaFormat.encoding"
    (((((j.getField "start").getD .null).getField "mediaFormat").getD
      .null).getField "encoding")
  let sampleRate ← asNumber "start.mediaFormat.sampleRate"
    (((((j.getField "start").getD .null).getField "mediaFormat").getD
      .null).getField "sampleRate")
  let headers ← asString "extra_headers" (j.getField "extra_headers")
  return { sequenceNumber := seq,
           start := { callId := callId, streamId := streamId,
                      accountId := accountId, tracks := tracks,
                      mediaFormat := { encoding := encoding,
                                       sampleRate := sampleRate } },
           extra_headers := headers }

/-- `MediaEventSchema.parse` from `types.ts` (the base object schema; the
`getRawMedia` accessor added by `.transform` is modelled separately below). -/
def MediaEventSchema.parse (j : Json) : Except String MediaEvent := do
  let seq ← asNumber "sequenceNumber" (j.getField "sequenceNumber")
  let streamId ← asUuid "streamId" (j.getField "streamId")
  let _ ← asLiteralStr "event" "media" (j.getField "event")
  let track ← asString "media.track"
    (((j.getField "media").getD .null).getField "track")
  let timestamp ← asString "media.timestamp"
    (((j.getField "media").getD .null).getField "timestamp")
  let chunk ← asNumber "media.chunk"
    (((j.getField "media").getD .null).getField "chunk")
  let payload ← asString "media.payload"
    (((j.getField "media").getD .null).getField "payload")
  let headers ← asString "extra_headers" (j.getField "extra_headers")
  return { sequenceNumber := seq, streamId := streamId,
           media := { track := track, timestamp := timestamp,
                      chunk := chunk, payload := payload },
           extra_headers := headers }

/-- `DTMFEventSchema.parse` from `types.ts`. -/
def DTMFEventSchema.parse (j : Json) : Except String DTMFEvent := do
  let _ ← asLiteralStr "event" "dtmf" (j.getField "event")
  let seq ← asNumber "sequenceNumber" (j.getField "sequenceNumber")
  let streamId ← asUuid "streamId" (j.getField "streamId")
  let track ← asString "dtmf.track"
    (((j.getField "dtmf").getD .null).getField "track")
  let digit ← asString "dtmf.digit"
    (((j.getField "dtmf").getD .null).getField "digit")
  let timestamp ← asString "dtmf.timestamp"
    (((j.getField "dtmf").getD .null).getField "timestamp")
  let headers ← asString "extra_headers" (j.getField "extra_headers")
  return { sequenceNumber := seq, streamId := streamId,
           dtmf := { track := track, digit := digit, timestamp := timestamp },
           extra_headers := headers }

/-- `PlayedStreamEventSchema.parse` from `types.ts`. -/
def PlayedStreamEventSchema.parse (j : Json) : Except String PlayedStreamEvent := do
  let _ ← asLiteralStr "event" "playedStream" (j.getField "event")
  let seq ← asNumber "sequenceNumber" (j.getField "sequenceNumber")
  let streamId ← asUuid "streamId" (j.getField "streamId")
  let name ← asString "name" (j.getField "name")
  return { sequenceNumber := seq, streamId := streamId, name := name }

/-- `ClearedAudioEventSchema.parse` from `types.ts`. -/
def ClearedAudioEventSchema.parse (j : Json) : Except String ClearedAudioEvent := do
  let _ ← asLiteralStr "event" "clearedAudio" (j.getField "event")
  let seq ← asNumber "sequenceNumber" (j.getField "sequenceNumber")
  let streamId ← asUuid "streamId" (j.getField "streamId")
  return { sequenceNumber := seq, streamId := streamId }

/-! ## Base64 (Node `Buffer` codec, standard alphabet with padding)

`playAudio` encodes the raw payload with `Buffer.prototype.toString('base64')`;
the `media` event accessor `getRawMedia` decodes with
`Buffer.from(payload, 'base64')`. Bytes are `Nat`s below 256. -/

def b64Char (n : Nat) : Char :=
  if n < 26 then Char.ofNat (65 + n)
  else if n < 52 then Char.ofNat (97 + (n - 26))
  else if n < 62 then Char.ofNat (48 + (n - 52))
  else if n = 62 then '+'
  else '/'

def b64Val (c : Char) : Option Nat :=
  if 'A' ≤ c && c ≤ 'Z' then some (c.toNat - 65)
  else if 'a' ≤ c && c ≤ 'z' then some (26 + (c.toNat - 97))
  else if '0' ≤ c && c ≤ '9' then some (52 + (c.toNat - 48))
  else if c = '+' then some 62
  else if c = '/' then some 63
  else none

/-- `Buffer.prototype.toString('base64')`: three bytes become four alphabet
characters; a trailing group of one or two bytes is padded with `=`. -/
def base64Encode : List Nat → List Char
  | [] => []
  | [a] => [b64Char (a / 4), b64Char (a % 4 * 16), '=', '=']
  | [a, b] => [b64Char (a / 4), b64Char (a % 4 * 16 + b / 16),
               b64Char (b % 16 * 4), '=']
  | a :: b :: c :: rest =>
      b64Char (a / 4) :: b64Char (a % 4 * 16 + b / 16) ::
      b64Char (b % 16 * 4 + c / 64) :: b64Char (c % 64) :: base64Encode rest

/-- Recombine 6-bit groups into bytes, dropping the 2 or 4 leftover bits of a
trailing group, as Node's forgiving decoder does. -/
def sextetsToBytes : List Nat → List Nat
  | s0 :: s1 :: s2 :: s3 :: rest =>
      (s0 * 4 + s1 / 16) :: (s1 % 16 * 16 + s2 / 4) :: (s2 % 4 * 64 + s3) ::
      sextetsToBytes rest
  | [s0, s1] => [s0 * 4 + s1 / 16]
  | [s0, s1, s2] => [s0 * 4 + s1 / 16, s1 % 16 * 16 + s2 / 4]
  | _ => []

/-- `Buffer.from(s, 'base64')`: characters outside the alphabet (including the
`=` padding) are skipped, the 6-bit values are repacked into bytes. -/
def base64Decode (cs : List Char) : List Nat :=
  sextetsToBytes (cs.filterMap b64Val)

/-- The derived accessor added by `MediaEventSchema`'s `.transform`:
`Buffer.from(data.media.payload, 'base64')`. -/
def MediaEvent.getRawMedia (e : MediaEvent) : List Nat :=
  base64Decode e.media.payload.toList

/-! ## Outbound command builder (`playAudio`, `checkpoint`, `clearAudio`)

The transport write is modelled by returning the JSON value passed to
`JSON.stringify`/`ws.send`; `Except.error` models a thrown `Error`. -/

inductive ReadyState where
  | CONNECTING | OPEN | CLOSING | CLOSED
deriving DecidableEq, Repr

/-- The per-connection `ConnectionMetadata` record. All fields start unset
(`none` models a JS `undefined` property). -/
structure ConnectionMetadata where
  streamId : Option String := none
  accountId : Option String := none
  callId : Option String := none
  headers : Option String := none
deriving DecidableEq, Repr

/-- JS truthiness of `metadata?.streamId`: false when the metadata record is
absent, the field is unset, or the field is the empty string. -/
def hasStreamId : Option ConnectionMetadata → Bool
  | none => false
  | some m =>
      match m.streamId with
      | none => false
      | some s => !(s = "")

/-- `PlivoWebSocketServer.playAudio`: on a non-open socket, warn and return
without sending; otherwise base64-encode the payload and send the
`playAudio` event. -/
def playAudio (readyState : ReadyState) (contentType : String)
    (sampleRate : Int) (payload : List Nat) : Option Json :=
  if readyState ≠ .OPEN then none
  else
    let base64Payload := String.mk (base64Encode payload)
    some (.obj [("event", .str "playAudio"),
                ("media", .obj [("contentType", .str contentType),
                                ("sampleRate", .num sampleRate),
                                ("payload", .str base64Payload)])])

/-- `PlivoWebSocketServer.checkpoint`: requires an open socket and a stored
`streamId`, then sends `{event, streamId, name}`. -/
def checkpoint (readyState : ReadyState) (metadata : Option ConnectionMetadata)
    (name : String) : Except String Json :=
  if readyState ≠ .OPEN then .error "WebSocket is not connected"
  else if !hasStreamId metadata then
    .error "Stream ID not available. Wait for the start event."
  else
    .ok (.obj [("event", .str "checkpoint"),
               ("streamId", .str (((metadata.getD {}).streamId).getD "")),
               ("name", .str name)])

/-- `PlivoWebSocketServer.clearAudio`: requires an open socket and a stored
`streamId`, then sends `{event, streamId}`. -/
def clearAudio (readyState : ReadyState)
    (metadata : Option ConnectionMetadata) : Except String Json :=
  if readyState ≠ .OPEN then .error "WebSocket is not connected"
  else if !hasStreamId metadata then
    .error "Stream ID not available. Wait for the start event."
  else
    .ok (.obj [("event", .str "clearAudio"),
               ("streamId", .str (((metadata.getD {}).streamId).getD ""))])

/-! ## Connection lifecycle controller and event dispatcher

One `ConnState` models one connection of `PlivoWebSocketServer`. Registered
listeners are modelled by their observable behaviour: each callback either
returns normally (`none`) or throws an `Error` with the given message
(`some msg`). The trace records, in order, every `handleIncomingEvent`
invocation, every listener invocation, every `console` log, and every
exception that escapes a transport handler. -/

inductive TraceEvent where
  | dispatched (data : Json)
  | startCb (i : Nat)
  | mediaCb (i : Nat)
  | dtmfCb (i : Nat)
  | playedStreamCb (i : Nat)
  | clearedAudioCb (i : Nat)
  | errorCb (i : Nat) (msg : String)
  | consoleLog (msg : String)
  | uncaught (msg : String)

/-- The listener registries of one `PlivoWebSocketServer`, by behaviour. -/
structure ListenerEnv where
  startCbs : List (StartEvent → Option String) := []
  mediaCbs : List (MediaEvent → Option String) := []
  dtmfCbs : List (DTMFEvent → Option String) := []
  playedStreamCbs : List (PlayedStreamEvent → Option String) := []
  clearedAudioCbs : List (ClearedAudioEvent → Option String) := []
  errorCbs : List (String → Option String) := []

structure ConnState where
  metadata : Option ConnectionMetadata := some {}
  isReady : Bool := false
  messageBuffer : List Json := []
  closedWith : Option (Nat × String) := none
  trace : List TraceEvent := []

def ConnState.addTrace (s : ConnState) (t : List TraceEvent) : ConnState :=
  { s with trace := s.trace ++ t }

/-- `registry.forEach((cb) => cb(x))` starting at index `i`: invocations stop
at the first callback that throws, and its exception propagates. -/
def runFrom {α : Type} (mk : Nat → TraceEvent) :
    Nat → List (α → Option String) → α → List TraceEvent × Option String
  | _, [], _ => ([], none)
  | i, cb :: rest, x =>
      match cb x with
      | none =>
          let r := runFrom mk (i + 1) rest x
          (mk i :: r.1, r.2)
      | some err => ([mk i], some err)

/-- `registry.forEach((cb) => { try { cb(x) } catch { } })` starting at `i`:
every callback is invoked, exceptions are swallowed individually. -/
def runAllFrom {α : Type} (mk : Nat → TraceEvent) :
    Nat → List (α → Option String) → α → List TraceEvent
  | _, [], _ => []
  | i, _ :: rest, x => mk i :: runAllFrom mk (i + 1) rest x

/-- `PlivoWebSocketServer.handleError`: notify the error listeners when any
are registered (a plain `forEach`, so a throwing listener aborts the rest and
the exception propagates to the caller), else log to the console. -/
def handleError (env : ListenerEnv) (msg : String) (s : ConnState) :
    ConnState × Option String :=
  if env.errorCbs.length > 0 then
    let r := runFrom (fun i => TraceEvent.errorCb i msg) 0 env.errorCbs msg
    (s.addTrace r.1, r.2)
  else
    (s.addTrace [.consoleLog ("[PlivoWebSocketServer] Error: " ++ msg)], none)

/-- JS template-literal stringification of `data.event`, used by the
"Unknown event type" message. -/
def jsDisplay : Option Json → String
  | none => "undefined"
  | some (.str s) => s
  | some (.num n) => toString n
  | some (.bool b) => cond b "true" "false"
  | some .null => "null"
  | some (.arr _) => "[array]"
  | some (.obj _) => "[object Object]"

/-- The `switch (data.event)` body of `handleIncomingEvent`, before the
enclosing `try`/`catch`: `some e` in the second component is an exception
(a schema-validation failure, or a listener throw) escaping the switch. -/
def mdUpdate (m : ConnectionMetadata) (ev : StartEvent) : ConnectionMetadata :=
  { m with
    streamId := some ev.start.streamId,
    accountId := some ev.start.accountId,
    callId := some ev.start.callId,
    headers := some ev.extra_headers }

def dispatchBody (env : ListenerEnv) (data : Json) (s : ConnState) :
    ConnState × Option String :=
  match data.getField "event" with
  | some (.str "start") =>
      match StartEventSchema.parse data with
      | .error e => (s, some e)
      | .ok ev =>
          (({ s with metadata := some (mdUpdate (s.metadata.getD {}) ev)
            }).addTrace (runFrom TraceEvent.startCb 0 env.startCbs ev).1,
           (runFrom TraceEvent.startCb 0 env.startCbs ev).2)
  | some (.str "media") =>
      match MediaEventSchema.parse data with
      | .error e => (s, some e)
      | .ok ev =>
          (s.addTrace (runFrom TraceEvent.mediaCb 0 env.mediaCbs ev).1,
           (runFrom TraceEvent.mediaCb 0 env.mediaCbs ev).2)
  | some (.str "dtmf") =>
      match DTMFEventSchema.parse data with
      | .error e => (s, some e)
      | .ok ev =>
          (s.addTrace (runFrom TraceEvent.dtmfCb 0 env.dtmfCbs ev).1,
           (runFrom TraceEvent.dtmfCb 0 env.dtmfCbs ev).2)
  | some (.str "playedStream") =>
      match PlayedStreamEventSchema.parse data with
      | .error e => (s, some e)
      | .ok ev =>
          (s.addTrace (runFrom TraceEvent.playedStreamCb 0 env.playedStreamCbs ev).1,
           (runFrom TraceEvent.playedStreamCb 0 env.playedStreamCbs ev).2)
  | some (.str "clearedAudio") =>
      match ClearedAudioEventSchema.parse data with
      | .error e => (s, some e)
      | .ok ev =>
          (s.addTrace (runFrom TraceEvent.clearedAudioCb 0 env.clearedAudioCbs ev).1,
           (runFrom TraceEvent.clearedAudioCb 0 env.clearedAudioCbs ev).2)
  | other => handleError env ("Unknown event type: " ++ jsDisplay other) s

/-- `PlivoWebSocketServer.handleIncomingEvent`: the switch above wrapped in
`try`/`catch`, the catch forwarding to `handleError` (whose own exceptions
escape this method). -/
def handleIncomingEvent (env : ListenerEnv) (data : Json) (s : ConnState) :
    ConnState × Option String :=
  match dispatchBody env data (s.addTrace [.dispatched data]) with
  | (s1, none) => (s1, none)
  | (s1, some e) => handleError env ("Failed to handle event: " ++ e) s1

/-- One raw transport message, by the outcome of `JSON.parse` on it:
`ok j` for well-formed JSON decoding to `j`, `bad e` for malformed JSON
(`JSON.parse` throws `e`). -/
inductive RawMsg where
  | ok (j : Json)
  | bad (e : String)

/-- The `ws.on('message', ...)` handler: parse, then dispatch when ready or
buffer when not; any exception is caught and routed to `handleError`, whose
own exception (if any) escapes the handler. -/
def onMessage (env : ListenerEnv) (raw : RawMsg) (s : ConnState) :
    ConnState × Option String :=
  match raw with
  | .ok j =>
      if s.isReady then
        match handleIncomingEvent env j s with
        | (s1, none) => (s1, none)
        | (s1, some e) => handleError env ("Failed to parse message: " ++ e) s1
      else ({ s with messageBuffer := s.messageBuffer ++ [j] }, none)
  | .bad e => handleError env ("Failed to parse message: " ++ e) s

/-- `ws.close(code, reason)`: a no-op on an already closed socket. -/
def closeWs (code : Nat) (reason : String) (s : ConnState) : ConnState :=
  if s.closedWith.isSome then s
  else { s with closedWith := some (code, reason) }

/-- The `for (const msg of messageBuffer) this.handleIncomingEvent(msg, ws)`
replay loop, inside the connection handler's `try`: an escaping exception
aborts the loop. -/
def drain (env : ListenerEnv) : List Json → ConnState → ConnState × Option String
  | [], s => (s, none)
  | m :: rest, s =>
      match handleIncomingEvent env m s with
      | (s1, none) => drain env rest s1
      | (s1, some e) => (s1, some e)

/-- The connection handler's `catch` block: log, notify every error listener
with the failure (exceptions swallowed individually), then close with the
abnormal-closure code 1011. -/
def connFailPath (env : ListenerEnv) (e : String) (s : ConnState) : ConnState :=
  closeWs 1011 "Connection setup failed"
    ((s.addTrace
      [.consoleLog ("[PlivoWebSocketServer] Connection setup failed: " ++ e)]).addTrace
      (runAllFrom (fun i => TraceEvent.errorCb i e) 0 env.errorCbs e))

/-- The readiness transition after every `connection` callback resolved:
set `isReady`, then replay the buffer; an exception escaping the replay is
caught by the connection handler's `catch` block. -/
def readySuccess (env : ListenerEnv) (s : ConnState) : ConnState :=
  match drain env s.messageBuffer { s with isReady := true } with
  | (s1, none) => s1
  | (s1, some e) => connFailPath env e s1

/-- One external input to a connection's lifecycle: a raw transport message,
the resolution of the last `connection` callback, or the rejection of a
`connection` callback with error `e`. -/
inductive ConnInput where
  | msg (raw : RawMsg)
  | ready
  | fail (e : String)

def step (env : ListenerEnv) (s : ConnState) : ConnInput → ConnState
  | .msg raw =>
      match onMessage env raw s with
      | (s1, none) => s1
      | (s1, some e) => s1.addTrace [.uncaught e]
  | .ready => readySuccess env s
  | .fail e => connFailPath env e s

/-- State right after `this.connectionMetadata.set(ws, {})` on an accepted
connection. -/
def initState : ConnState := {}

/-- State of a connection rejected by V3 signature validation: closed with
1008 before any metadata is created. -/
def rejectedState : ConnState :=
  { metadata := none, closedWith := some (1008, "Signature validation failed") }

/-- The accept path of `setupConnectionHandler`, with the outcome of the
external signature verifier abstracted to a boolean. -/
def acceptConnection (signatureOk : Bool) : ConnState :=
  if signatureOk then initState else rejectedState

def runFromState (env : ListenerEnv) (s0 : ConnState)
    (inputs : List ConnInput) : ConnState :=
  inputs.foldl (step env) s0

def run (env : ListenerEnv) (inputs : List ConnInput) : ConnState :=
  runFromState env initState inputs

/-! Metadata accessors (`getStreamId` and friends, the `?.` chains). -/

def getStreamId (s : ConnState) : Option String := s.metadata.bind (·.streamId)

def getAccountId (s : ConnState) : Option String := s.metadata.bind (·.accountId)

def getCallId (s : ConnState) : Option String := s.metadata.bind (·.callId)

def getHeaders (s : ConnState) : Option String := s.metadata.bind (·.headers)

/-! Trace observations. -/

/-- The data of a `dispatched` trace entry. -/
def dispProj : TraceEvent → Option Json
  | .dispatched j => some j
  | _ => none

/-- The raw messages handed to the event dispatcher, in order. -/
def dispatchedOf (t : List TraceEvent) : List Json :=
  t.filterMap dispProj

/-- The trace produced by one non-throwing `handleError` notification. -/
def errNotifyTrace (env : ListenerEnv) (msg : String) : List TraceEvent :=
  if env.errorCbs.length > 0 then
    (List.range env.errorCbs.length).map fun i => TraceEvent.errorCb i msg
  else [.consoleLog ("[PlivoWebSocketServer] Error: " ++ msg)]

/-- The messages among a raw-input list that `JSON.parse` accepts. -/
def okMsgs (raws : List RawMsg) : List Json :=
  raws.filterMap fun r =>
    match r with
    | .ok j => some j
    | .bad _ => none

def msgInputs (raws : List RawMsg) : List ConnInput :=
  raws.map .msg

/-- A raw message the dispatcher treats as malformed: unknown (or missing)
`event` discriminator, or a schema-validation failure for its kind. -/
def isMalformed (j : Json) : Bool :=
  match j.getField "event" with
  | some (.str "start") => !(StartEventSchema.parse j).isOk
  | some (.str "media") => !(MediaEventSchema.parse j).isOk
  | some (.str "dtmf") => !(DTMFEventSchema.parse j).isOk
  | some (.str "playedStream") => !(PlayedStreamEventSchema.parse j).isOk
  | some (.str "clearedAudio") => !(ClearedAudioEventSchema.parse j).isOk
  | _ => true

/-- An input that is not a successfully-parsing `start` message. -/
def nonStartInput : ConnInput → Prop
  | .msg (.ok j) => ∀ ev, StartEventSchema.parse j ≠ .ok ev
  | _ => True

/-- Metadata still in its post-accept state: either absent (connection
rejected before `connectionMetadata.set(ws, {})`) or the empty record. -/
def metadataBlank (s : ConnState) : Prop :=
  s.metadata = none ∨ s.metadata = some {}

/-! ## Spec-side predicates (for refinement claims)

`startPayloadSpec` is written from the spec's words (§4.1 `start` schema, as
amended for C9), to be compared with `StartEventSchema.parse`. -/

def isStringJ : Option Json → Bool
  | some (.str _) => true
  | _ => false

def isNumberJ : Option Json → Bool
  | some (.num _) => true
  | _ => false

def isUuidJ : Option Json → Bool
  | some (.str s) => isUuid s
  | _ => false

def isLiteralJ (lit : String) : Option Json → Bool
  | some (.str s) => s = lit
  | _ => false

def isStringArrayJ : Option Json → Bool
  | some (.arr xs) =>
      xs.all fun x =>
        match x with
        | .str _ => true
        | _ => false
  | _ => false

/-- Spec characterization of a decoded-JSON value accepted by the `start`
schema: `event` is the literal `start`, `sequenceNumber` a number,
`start.callId` and `start.streamId` UUID-format identifiers,
`start.accountId` a string, `start.tracks` a sequence of strings,
`start.mediaFormat.encoding` a string, `start.mediaFormat.sampleRate` a
number, `extra_headers` a string. -/
def startPayloadSpec (j : Json) : Bool :=
  isLiteralJ "start" (j.getField "event") &&
  isNumberJ (j.getField "sequenceNumber") &&
  isUuidJ (((j.getField "start").getD .null).getField "callId") &&
  isUuidJ (((j.getField "start").getD .null).getField "streamId") &&
  isStringJ (((j.getField "start").getD .null).getField "accountId") &&
  isStringArrayJ (((j.getField "start").getD .null).getField "tracks") &&
  isStringJ (((((j.getField "start").getD .null).getField
    "mediaFormat").getD .null).getField "encoding") &&
  isNumberJ (((((j.getField "start").getD .null).getField
    "mediaFormat").getD .null).getField "sampleRate") &&
  isStringJ (j.getField "extra_headers")

/-! ## Concrete inputs used by counterexamples and witnesses -/

def uuidA : String := "11111111-1111-1111-8111-111111111111"

def uuidB : String := "22222222-2222-2222-8222-222222222222"

def uuidCall : String := "33333333-3333-3333-8333-333333333333"

/-- A decoded `start` payload with the given ids and sample rate. -/
def startJson (sid acc cid : String) (rate : Int) : Json :=
  .obj [("event", .str "start"), ("sequenceNumber", .num 1),
        ("start", .obj
          [("callId", .str cid), ("streamId", .str sid),
           ("accountId", .str acc), ("tracks", .arr [.str "inbound"]),
           ("mediaFormat", .obj
             [("encoding", .str "audio/x-mulaw"), ("sampleRate", .num rate)])]),
        ("extra_headers", .str "")]

def startJsonA : Json := startJson uuidA "MA_FIRST" uuidCall 8000

def startJsonB : Json := startJson uuidB "MA_SECOND" uuidCall 8000

/-- A well-formed `start` payload whose `mediaFormat.sampleRate` is `-1`. -/
def negRateStartJson : Json := startJson uuidA "MA_NEG" uuidCall (-1)

def startEventA : StartEvent :=
  { sequenceNumber := 1,
    start := { callId := uuidCall, streamId := uuidA, accountId := "MA_FIRST",
               tracks := ["inbound"],
               mediaFormat := { encoding := "audio/x-mulaw", sampleRate := 8000 } },
    extra_headers := "" }

def mediaJsonA : Json :=
  .obj [("sequenceNumber", .num 2), ("streamId", .str uuidA),
        ("event", .str "media"),
        ("media", .obj
          [("track", .str "inbound"), ("timestamp", .str "123"),
           ("chunk", .num 1), ("payload", .str "TWE=")]),
        ("extra_headers", .str "")]

def mediaEventA : MediaEvent :=
  { sequenceNumber := 2, streamId := uuidA,
    media := { track := "inbound", timestamp := "123", chunk := 1,
               payload := "TWE=" },
    extra_headers := "" }

def unknownJson1 : Json := .obj [("event", .str "bogus")]

def unknownJson2 : Json := .obj [("event", .str "bogus2")]

/-- A registry with one error listener that never throws. -/
def benignEnv : ListenerEnv := { errorCbs := [fun _ => none] }

/-- A registry whose single error listener always throws. -/
def throwingErrEnv : ListenerEnv := { errorCbs := [fun _ => some "boom"] }

/-- Two media listeners, the first of which always throws. -/
def c4Env : ListenerEnv := { mediaCbs := [fun _ => some "boom", fun _ => none] }

/-- Two error listeners, the first of which always throws. -/
def c7Env : ListenerEnv :=
  { errorCbs := [fun _ => some "boom", fun _ => none] }

/-! ## Helper lemmas

Frame lemmas (which state components an operation can touch), trace
bookkeeping, and the behaviour of the callback loops. `ErrCbsBenign`
captures connections whose registered error listeners never throw. -/

def ErrCbsBenign (env : ListenerEnv) : Prop :=
  ∀ cb ∈ env.errorCbs, ∀ m, cb m = none

/-- Dispatcher frame: the parts of the state `handleIncomingEvent` never
writes (it may write metadata and the trace). -/
def FrameDispatch (s s' : ConnState) : Prop :=
  s'.isReady = s.isReady ∧ s'.messageBuffer = s.messageBuffer ∧
  s'.closedWith = s.closedWith

theorem FrameDispatch.refl (s : ConnState) : FrameDispatch s s :=
  ⟨rfl, rfl, rfl⟩

theorem FrameDispatch.trans {s1 s2 s3 : ConnState}
    (h1 : FrameDispatch s1 s2) (h2 : FrameDispatch s2 s3) :
    FrameDispatch s1 s3 :=
  ⟨h2.1.trans h1.1, h2.2.1.trans h1.2.1, h2.2.2.trans h1.2.2⟩

theorem frameDispatch_addTrace (s : ConnState) (t : List TraceEvent) :
    FrameDispatch s (s.addTrace t) :=
  ⟨rfl, rfl, rfl⟩

theorem addTrace_metadata (s : ConnState) (t : List TraceEvent) :
    (s.addTrace t).metadata = s.metadata := rfl

theorem dispatchedOf_append (t1 t2 : List TraceEvent) :
    dispatchedOf (t1 ++ t2) = dispatchedOf t1 ++ dispatchedOf t2 :=
  List.filterMap_append t1 t2 _

theorem runFrom_all_none {α : Type} (mk : Nat → TraceEvent) (x : α) :
    ∀ (cbs : List (α → Option String)) (i : Nat),
      (∀ cb ∈ cbs, cb x = none) →
      runFrom mk i cbs x = ((List.range' i cbs.length).map mk, none)
  | [], i, _ => by simp [runFrom]
  | cb :: rest, i, h => by
      have hcb : cb x = none := h cb (List.mem_cons_self cb rest)
      have ih := runFrom_all_none mk x rest (i + 1)
        (fun c hc => h c (List.mem_cons_of_mem cb hc))
      simp [runFrom, hcb, ih, List.range'_succ]

theorem runFrom_mem {α : Type} (mk : Nat → TraceEvent) (x : α) :
    ∀ (cbs : List (α → Option String)) (i : Nat),
      ∀ e ∈ (runFrom mk i cbs x).1, ∃ j, e = mk j
  | [], i => by simp [runFrom]
  | cb :: rest, i => by
      intro e he
      unfold runFrom at he
      cases hcb : cb x with
      | none =>
          rw [hcb] at he
          simp only [List.mem_cons] at he
          rcases he with h | h
          · exact ⟨i, h⟩
          · exact runFrom_mem mk x rest (i + 1) e h
      | some err =>
          rw [hcb] at he
          simp only [List.mem_cons, List.not_mem_nil, or_false] at he
          exact ⟨i, he⟩

theorem runAllFrom_eq {α : Type} (mk : Nat → TraceEvent) (x : α) :
    ∀ (cbs : List (α → Option String)) (i : Nat),
      runAllFrom mk i cbs x = (List.range' i cbs.length).map mk
  | [], i => by simp [runAllFrom]
  | _ :: rest, i => by
      simp [runAllFrom, runAllFrom_eq mk x rest (i + 1), List.range'_succ]

/-- When no error listener throws, `handleError` appends exactly the
notification trace and returns normally. -/
theorem handleError_benign {env : ListenerEnv} (hErr : ErrCbsBenign env)
    (msg : String) (s : ConnState) :
    handleError env msg s = (s.addTrace (errNotifyTrace env msg), none) := by
  unfold handleError errNotifyTrace
  by_cases h : env.errorCbs.length > 0
  · simp only [h, if_true]
    rw [runFrom_all_none (fun i => TraceEvent.errorCb i msg) msg env.errorCbs 0
      (fun cb hcb => hErr cb hcb msg)]
    rw [List.range_eq_range' env.errorCbs.length]
  · simp only [h, if_false]

theorem handleError_frame (env : ListenerEnv) (msg : String) (s : ConnState) :
    FrameDispatch s (handleError env msg s).1 ∧
    (handleError env msg s).1.metadata = s.metadata := by
  unfold handleError
  by_cases h : env.errorCbs.length > 0 <;>
    simp [h, frameDispatch_addTrace, addTrace_metadata]

theorem dispatchedOf_handleError (env : ListenerEnv) (msg : String)
    (s : ConnState) :
    dispatchedOf (handleError env msg s).1.trace = dispatchedOf s.trace := by
  unfold handleError
  by_cases h : env.errorCbs.length > 0
  · simp only [h, if_true, ConnState.addTrace, dispatchedOf_append]
    have : dispatchedOf (runFrom (fun i => TraceEvent.errorCb i msg) 0
        env.errorCbs msg).1 = [] := by
      refine List.filterMap_eq_nil_iff.mpr fun e he => ?_
      obtain ⟨j, rfl⟩ := runFrom_mem _ msg env.errorCbs 0 e he
      rfl
    rw [this, List.append_nil]
  · simp only [h, if_false, ConnState.addTrace, dispatchedOf_append]
    simp [dispatchedOf, dispProj]

theorem dispatchedOf_runFrom {α : Type} (mk : Nat → TraceEvent) (x : α)
    (cbs : List (α → Option String)) (i : Nat)
    (hmk : ∀ j, dispProj (mk j) = none) :
    dispatchedOf (runFrom mk i cbs x).1 = [] := by
  refine List.filterMap_eq_nil_iff.mpr fun e he => ?_
  obtain ⟨j, rfl⟩ := runFrom_mem mk x cbs i e he
  exact hmk j

theorem dispatchBody_frame (env : ListenerEnv) (j : Json) (s : ConnState) :
    FrameDispatch s (dispatchBody env j s).1 := by
  unfold dispatchBody
  split
  · split
    · exact FrameDispatch.refl s
    · exact ⟨rfl, rfl, rfl⟩
  · split
    · exact FrameDispatch.refl s
    · exact ⟨rfl, rfl, rfl⟩
  · split
    · exact FrameDispatch.refl s
    · exact ⟨rfl, rfl, rfl⟩
  · split
    · exact FrameDispatch.refl s
    · exact ⟨rfl, rfl, rfl⟩
  · split
    · exact FrameDispatch.refl s
    · exact ⟨rfl, rfl, rfl⟩
  · exact (handleError_frame _ _ _).1

theorem dispatchedOf_dispatchBody (env : ListenerEnv) (j : Json)
    (s : ConnState) :
    dispatchedOf (dispatchBody env j s).1.trace = dispatchedOf s.trace := by
  unfold dispatchBody
  split
  · split
    · rfl
    · simp only [ConnState.addTrace, dispatchedOf_append,
        dispatchedOf_runFrom TraceEvent.startCb _ _ _ (fun _ => rfl),
        List.append_nil]
  · split
    · rfl
    · simp only [ConnState.addTrace, dispatchedOf_append,
        dispatchedOf_runFrom TraceEvent.mediaCb _ _ _ (fun _ => rfl),
        List.append_nil]
  · split
    · rfl
    · simp only [ConnState.addTrace, dispatchedOf_append,
        dispatchedOf_runFrom TraceEvent.dtmfCb _ _ _ (fun _ => rfl),
        List.append_nil]
  · split
    · rfl
    · simp only [ConnState.addTrace, dispatchedOf_append,
        dispatchedOf_runFrom TraceEvent.playedStreamCb _ _ _ (fun _ => rfl),
        List.append_nil]
  · split
    · rfl
    · simp only [ConnState.addTrace, dispatchedOf_append,
        dispatchedOf_runFrom TraceEvent.clearedAudioCb _ _ _ (fun _ => rfl),
        List.append_nil]
  · exact dispatchedOf_handleError _ _ _


theorem handleIncomingEvent_frame (env : ListenerEnv) (j : Json)
    (s : ConnState) :
    FrameDispatch s (handleIncomingEvent env j s).1 := by
  have h0 : FrameDispatch s (s.addTrace [TraceEvent.dispatched j]) :=
    frameDispatch_addTrace _ _
  have hb := dispatchBody_frame env j (s.addTrace [TraceEvent.dispatched j])
  unfold handleIncomingEvent
  split
  · rename_i s1 heq
    rw [heq] at hb
    exact h0.trans hb
  · rename_i s1 e heq
    rw [heq] at hb
    exact (h0.trans hb).trans (handleError_frame env _ _).1

theorem dispatchedOf_handleIncomingEvent (env : ListenerEnv) (j : Json)
    (s : ConnState) :
    dispatchedOf (handleIncomingEvent env j s).1.trace =
      dispatchedOf s.trace ++ [j] := by
  have hd : dispatchedOf (s.addTrace [TraceEvent.dispatched j]).trace =
      dispatchedOf s.trace ++ [j] := by
    simp [ConnState.addTrace, dispatchedOf_append, dispatchedOf, dispProj]
  have hb := dispatchedOf_dispatchBody env j (s.addTrace [TraceEvent.dispatched j])
  unfold handleIncomingEvent
  split
  · rename_i s1 heq
    rw [heq] at hb
    exact hb.trans hd
  · rename_i s1 e heq
    rw [heq] at hb
    rw [dispatchedOf_handleError]
    exact hb.trans hd

theorem handleIncomingEvent_exc_benign {env : ListenerEnv}
    (hErr : ErrCbsBenign env) (j : Json) (s : ConnState) :
    (handleIncomingEvent env j s).2 = none := by
  unfold handleIncomingEvent
  split
  · rfl
  · rw [handleError_benign hErr]

/-- A value whose `event` field is not the string `"start"` fails the
`StartEventSchema` literal check. -/
theorem startSchema_event_ne (j : Json)
    (h : j.getField "event" ≠ some (.str "start")) :
    StartEventSchema.parse j = .error "event: expected literal start" := by
  unfold StartEventSchema.parse
  cases hf : j.getField "event" with
  | none => rfl
  | some v =>
      cases v with
      | str s =>
          by_cases hs : s = "start"
          · exact absurd (by rw [hf, hs]) h
          · simp [asLiteralStr, hs, Bind.bind, Except.bind]
      | null => rfl
      | bool b => rfl
      | num n => rfl
      | arr xs => rfl
      | obj fields => rfl

theorem startSchema_ok_event {j : Json} {ev : StartEvent}
    (h : StartEventSchema.parse j = .ok ev) :
    j.getField "event" = some (.str "start") := by
  by_contra hne
  rw [startSchema_event_ne j hne] at h
  cases h

theorem dispatchBody_metadata_ok {j : Json} {ev : StartEvent}
    (env : ListenerEnv) (s : ConnState)
    (h : StartEventSchema.parse j = .ok ev) :
    (dispatchBody env j s).1.metadata =
      some (mdUpdate (s.metadata.getD {}) ev) := by
  unfold dispatchBody
  rw [startSchema_ok_event h, h]
  rfl

theorem dispatchBody_metadata_err {j : Json} (env : ListenerEnv)
    (s : ConnState) (h : ∀ ev, StartEventSchema.parse j ≠ .ok ev) :
    (dispatchBody env j s).1.metadata = s.metadata := by
  unfold dispatchBody
  split
  · split
    · rfl
    · rename_i ev heq
      exact absurd heq (h ev)
  · split
    · rfl
    · rfl
  · split
    · rfl
    · rfl
  · split
    · rfl
    · rfl
  · split
    · rfl
    · rfl
  · exact (handleError_frame _ _ _).2

theorem handleIncomingEvent_metadata_ok {j : Json} {ev : StartEvent}
    (env : ListenerEnv) (s : ConnState)
    (h : StartEventSchema.parse j = .ok ev) :
    (handleIncomingEvent env j s).1.metadata =
      some (mdUpdate (s.metadata.getD {}) ev) := by
  have hb := dispatchBody_metadata_ok (j := j) env
    (s.addTrace [TraceEvent.dispatched j]) h
  unfold handleIncomingEvent
  split
  · rename_i s1 heq
    rw [heq] at hb
    exact hb
  · rename_i s1 e heq
    rw [heq] at hb
    rw [(handleError_frame env _ _).2]
    exact hb

theorem handleIncomingEvent_metadata_err {j : Json} (env : ListenerEnv)
    (s : ConnState) (h : ∀ ev, StartEventSchema.parse j ≠ .ok ev) :
    (handleIncomingEvent env j s).1.metadata = s.metadata := by
  have hb := dispatchBody_metadata_err (j := j) env
    (s.addTrace [TraceEvent.dispatched j]) h
  unfold handleIncomingEvent
  split
  · rename_i s1 heq
    rw [heq] at hb
    exact hb
  · rename_i s1 e heq
    rw [heq] at hb
    rw [(handleError_frame env _ _).2]
    exact hb

/-- With benign error listeners the replay loop never aborts: it dispatches
every buffered message, in order, touching nothing but metadata and trace. -/
theorem drain_benign {env : ListenerEnv} (hErr : ErrCbsBenign env) :
    ∀ (msgs : List Json) (s : ConnState),
      (drain env msgs s).2 = none ∧
      FrameDispatch s (drain env msgs s).1 ∧
      dispatchedOf (drain env msgs s).1.trace = dispatchedOf s.trace ++ msgs
  | [], s => by simp [drain, FrameDispatch.refl]
  | m :: rest, s => by
      have hexc := handleIncomingEvent_exc_benign hErr m s
      unfold drain
      split
      · rename_i s1 heq
        obtain ⟨h2, hf, hd⟩ := drain_benign hErr rest s1
        have hfi := handleIncomingEvent_frame env m s
        have hdi := dispatchedOf_handleIncomingEvent env m s
        rw [heq] at hfi hdi
        refine ⟨h2, FrameDispatch.trans hfi hf, ?_⟩
        rw [hd, hdi, List.append_assoc]
        rfl
      · rename_i s1 e heq
        rw [heq] at hexc
        exact absurd hexc (by simp)

theorem connFailPath_trace (env : ListenerEnv) (e : String) (s : ConnState) :
    (connFailPath env e s).trace =
      s.trace ++
      [.consoleLog ("[PlivoWebSocketServer] Connection setup failed: " ++ e)] ++
      (List.range env.errorCbs.length).map (fun i => TraceEvent.errorCb i e) := by
  unfold connFailPath closeWs
  rw [runAllFrom_eq, ← List.range_eq_range' env.errorCbs.length]
  split <;> simp [ConnState.addTrace]

theorem connFailPath_parts (env : ListenerEnv) (e : String) (s : ConnState) :
    (connFailPath env e s).isReady = s.isReady ∧
    (connFailPath env e s).metadata = s.metadata ∧
    (connFailPath env e s).messageBuffer = s.messageBuffer := by
  unfold connFailPath closeWs
  split <;> simp [ConnState.addTrace]

theorem connFailPath_closed (env : ListenerEnv) (e : String) (s : ConnState)
    (h : s.closedWith = none) :
    (connFailPath env e s).closedWith =
      some (1011, "Connection setup failed") := by
  unfold connFailPath closeWs
  split
  · rename_i hcond
    simp [ConnState.addTrace, h] at hcond
  · rfl

theorem dispatchedOf_connFailPath (env : ListenerEnv) (e : String)
    (s : ConnState) :
    dispatchedOf (connFailPath env e s).trace = dispatchedOf s.trace := by
  rw [connFailPath_trace, dispatchedOf_append, dispatchedOf_append]
  have h2 : dispatchedOf
      ((List.range env.errorCbs.length).map
        (fun i => TraceEvent.errorCb i e)) = [] := by
    refine List.filterMap_eq_nil_iff.mpr fun x hx => ?_
    obtain ⟨i, _, rfl⟩ := List.mem_map.mp hx
    rfl
  rw [h2]
  simp [dispatchedOf, dispProj]

theorem okMsgs_cons (raw : RawMsg) (rest : List RawMsg) :
    okMsgs (raw :: rest) = okMsgs [raw] ++ okMsgs rest := by
  cases raw <;> simp [okMsgs]

/-- One raw-message input on a connection that is not yet ready: well-formed
JSON is appended to the buffer, malformed JSON takes the error path; nothing
is dispatched, the socket is not closed, metadata is untouched. -/
theorem step_msg_notReady (env : ListenerEnv) (raw : RawMsg) (s : ConnState)
    (h : s.isReady = false) :
    (step env s (.msg raw)).isReady = false ∧
    (step env s (.msg raw)).messageBuffer = s.messageBuffer ++ okMsgs [raw] ∧
    (step env s (.msg raw)).closedWith = s.closedWith ∧
    (step env s (.msg raw)).metadata = s.metadata ∧
    dispatchedOf (step env s (.msg raw)).trace = dispatchedOf s.trace := by
  cases raw with
  | ok j => simp [step, onMessage, h, okMsgs]
  | bad e =>
      have hf := handleError_frame env ("Failed to parse message: " ++ e) s
      have hd := dispatchedOf_handleError env ("Failed to parse message: " ++ e) s
      simp only [step, onMessage]
      split
      · rename_i s1 heq
        rw [heq] at hf hd
        refine ⟨hf.1.1.trans h, ?_, hf.1.2.2, hf.2, hd⟩
        rw [hf.1.2.1]
        simp [okMsgs]
      · rename_i s1 exc heq
        rw [heq] at hf hd
        refine ⟨hf.1.1.trans h, ?_, hf.1.2.2, hf.2, ?_⟩
        · rw [show (s1.addTrace [TraceEvent.uncaught exc]).messageBuffer =
              s1.messageBuffer from rfl, hf.1.2.1]
          simp [okMsgs]
        · rw [show (s1.addTrace [TraceEvent.uncaught exc]).trace =
              s1.trace ++ [TraceEvent.uncaught exc] from rfl,
            dispatchedOf_append]
          rw [show dispatchedOf [TraceEvent.uncaught exc] = [] from rfl]
          rw [List.append_nil]
          exact hd

/-- Before readiness, a sequence of raw-message inputs only accumulates the
well-formed messages in the buffer, in receipt order. -/
theorem run_msgs_notReady (env : ListenerEnv) :
    ∀ (raws : List RawMsg) (s : ConnState), s.isReady = false →
      (runFromState env s (msgInputs raws)).isReady = false ∧
      (runFromState env s (msgInputs raws)).messageBuffer =
        s.messageBuffer ++ okMsgs raws ∧
      (runFromState env s (msgInputs raws)).closedWith = s.closedWith ∧
      (runFromState env s (msgInputs raws)).metadata = s.metadata ∧
      dispatchedOf (runFromState env s (msgInputs raws)).trace =
        dispatchedOf s.trace
  | [], s, h => by simp [runFromState, msgInputs, okMsgs, h]
  | raw :: rest, s, h => by
      have hs := step_msg_notReady env raw s h
      have ih := run_msgs_notReady env rest (step env s (.msg raw)) hs.1
      simp only [runFromState, msgInputs, List.map_cons, List.foldl_cons] at ih ⊢
      refine ⟨ih.1, ?_, ih.2.2.1.trans hs.2.2.1, ih.2.2.2.1.trans hs.2.2.2.1,
        ih.2.2.2.2.trans hs.2.2.2.2⟩
      rw [ih.2.1, hs.2.1, List.append_assoc]
      congr 1
      cases raw <;> simp [okMsgs]

theorem dispatchedOf_errNotifyTrace (env : ListenerEnv) (msg : String) :
    dispatchedOf (errNotifyTrace env msg) = [] := by
  unfold errNotifyTrace
  split
  · refine List.filterMap_eq_nil_iff.mpr fun x hx => ?_
    obtain ⟨i, _, rfl⟩ := List.mem_map.mp hx
    rfl
  · rfl

/-- One raw-message input on a ready connection with benign error listeners:
well-formed JSON is dispatched immediately (and only then), the buffer and
the socket state are untouched. -/
theorem step_msg_ready {env : ListenerEnv} (hErr : ErrCbsBenign env)
    (raw : RawMsg) (s : ConnState) (h : s.isReady = true) :
    (step env s (.msg raw)).isReady = true ∧
    (step env s (.msg raw)).messageBuffer = s.messageBuffer ∧
    (step env s (.msg raw)).closedWith = s.closedWith ∧
    dispatchedOf (step env s (.msg raw)).trace =
      dispatchedOf s.trace ++ okMsgs [raw] := by
  cases raw with
  | ok j =>
      have hexc := handleIncomingEvent_exc_benign hErr j s
      have hf := handleIncomingEvent_frame env j s
      have hd := dispatchedOf_handleIncomingEvent env j s
      rcases hie : handleIncomingEvent env j s with ⟨s1, exc⟩
      rw [hie] at hexc hf hd
      have hexc2 : exc = none := hexc
      subst hexc2
      simp only [step, onMessage, h, if_true]
      rw [hie]
      exact ⟨hf.1.trans h, hf.2.1, hf.2.2, by rw [hd]; simp [okMsgs]⟩
  | bad e =>
      have hb := handleError_benign hErr ("Failed to parse message: " ++ e) s
      simp only [step, onMessage, hb]
      refine ⟨h, rfl, rfl, ?_⟩
      rw [show (s.addTrace (errNotifyTrace env ("Failed to parse message: " ++ e))).trace
          = s.trace ++ errNotifyTrace env ("Failed to parse message: " ++ e) from rfl,
        dispatchedOf_append, dispatchedOf_errNotifyTrace]
      simp [okMsgs]

/-- After readiness, raw-message inputs are dispatched immediately, in order,
without touching the buffer or closing the socket. -/
theorem run_msgs_ready {env : ListenerEnv} (hErr : ErrCbsBenign env) :
    ∀ (raws : List RawMsg) (s : ConnState), s.isReady = true →
      (runFromState env s (msgInputs raws)).isReady = true ∧
      (runFromState env s (msgInputs raws)).messageBuffer = s.messageBuffer ∧
      (runFromState env s (msgInputs raws)).closedWith = s.closedWith ∧
      dispatchedOf (runFromState env s (msgInputs raws)).trace =
        dispatchedOf s.trace ++ okMsgs raws
  | [], s, h => by simp [runFromState, msgInputs, okMsgs, h]
  | raw :: rest, s, h => by
      have hs := step_msg_ready hErr raw s h
      have ih := run_msgs_ready hErr rest (step env s (.msg raw)) hs.1
      simp only [runFromState, msgInputs, List.map_cons, List.foldl_cons] at ih ⊢
      refine ⟨ih.1, ih.2.1.trans hs.2.1, ih.2.2.1.trans hs.2.2.1, ?_⟩
      rw [ih.2.2.2, hs.2.2.2, List.append_assoc]
      congr 1
      cases raw <;> simp [okMsgs]

/-- The readiness transition with benign error listeners: the connection
flips to ready and every buffered message is replayed, in order. -/
theorem readySuccess_benign {env : ListenerEnv} (hErr : ErrCbsBenign env)
    (s : ConnState) :
    (readySuccess env s).isReady = true ∧
    (readySuccess env s).messageBuffer = s.messageBuffer ∧
    (readySuccess env s).closedWith = s.closedWith ∧
    dispatchedOf (readySuccess env s).trace =
      dispatchedOf s.trace ++ s.messageBuffer := by
  obtain ⟨h2, hf, hd⟩ :=
    drain_benign hErr s.messageBuffer { s with isReady := true }
  unfold readySuccess
  split
  · rename_i s1 heq
    rw [heq] at hf hd
    exact ⟨hf.1, hf.2.1, hf.2.2, hd⟩
  · rename_i s1 e heq
    rw [heq] at h2
    exact absurd h2 (by simp)

/-! ## Claim theorems -/

/-- C1, counterexample: a connection that becomes ready (both `connection`
callbacks resolved, `isReady` flips to true) but whose error listener throws
while the first buffered message (an unknown-event payload) is replayed. The
second buffered message is never handed to the event dispatcher — it is
dropped — and the connection is closed, contradicting "replayed … exactly
once … no message … dropped". -/
theorem c1_throwing_error_listener_drops_buffered :
    (run throwingErrEnv
      [.msg (.ok unknownJson1), .msg (.ok unknownJson2), .ready]).isReady = true ∧
    dispatchedOf (run throwingErrEnv
      [.msg (.ok unknownJson1), .msg (.ok unknownJson2), .ready]).trace =
      [unknownJson1] ∧
    (run throwingErrEnv
      [.msg (.ok unknownJson1), .msg (.ok unknownJson2), .ready]).closedWith =
      some (1011, "Connection setup failed") :=
  ⟨rfl, rfl, rfl⟩

/-- C1, as amended: provided no registered error listener throws, every raw
message received before the connection listeners resolve is buffered and,
after the last connection listener resolves, replayed through the event
dispatcher exactly once in original receipt order; every raw message
received after readiness is dispatched immediately without buffering — so
the dispatch trace is exactly the well-formed messages in receipt order,
each exactly once. -/
theorem c1_buffered_replay_exactly_once (env : ListenerEnv)
    (hErr : ErrCbsBenign env) (pre post : List RawMsg) :
    dispatchedOf (run env
        (msgInputs pre ++ ConnInput.ready :: msgInputs post)).trace =
      okMsgs pre ++ okMsgs post ∧
    (run env (msgInputs pre ++ ConnInput.ready :: msgInputs post)).isReady =
      true ∧
    (run env (msgInputs pre ++ ConnInput.ready :: msgInputs post)).messageBuffer =
      okMsgs pre ∧
    (run env (msgInputs pre ++ ConnInput.ready :: msgInputs post)).closedWith =
      none := by
  have h1 := run_msgs_notReady env pre initState rfl
  have h2 := readySuccess_benign hErr (runFromState env initState (msgInputs pre))
  have h3 := run_msgs_ready hErr post
    (readySuccess env (runFromState env initState (msgInputs pre))) h2.1
  have hsplit : run env (msgInputs pre ++ ConnInput.ready :: msgInputs post) =
      runFromState env
        (readySuccess env (runFromState env initState (msgInputs pre)))
        (msgInputs post) := by
    unfold run runFromState
    rw [List.foldl_append, List.foldl_cons]
    rfl
  have hbuf1 : (runFromState env initState (msgInputs pre)).messageBuffer =
      okMsgs pre := by
    rw [h1.2.1]
    rfl
  rw [hsplit]
  refine ⟨?_, h3.1, ?_, ?_⟩
  · rw [h3.2.2.2, h2.2.2.2, hbuf1, h1.2.2.2.2]
    simp [dispatchedOf, initState]
  · rw [h3.2.1, h2.2.1, hbuf1]
  · rw [h3.2.2.1, h2.2.2.1, h1.2.2.1]
    rfl

/-- C1 witness: a valid `start`, a malformed-JSON frame and a buffered-phase
boundary, followed by one post-ready `media` message, with a benign error
listener registered. -/
theorem c1_buffered_replay_exactly_once_witness :
    dispatchedOf (run benignEnv
        (msgInputs [RawMsg.ok startJsonA, RawMsg.bad "oops"] ++
          ConnInput.ready :: msgInputs [RawMsg.ok mediaJsonA])).trace =
      okMsgs [RawMsg.ok startJsonA, RawMsg.bad "oops"] ++
        okMsgs [RawMsg.ok mediaJsonA] ∧
    (run benignEnv (msgInputs [RawMsg.ok startJsonA, RawMsg.bad "oops"] ++
        ConnInput.ready :: msgInputs [RawMsg.ok mediaJsonA])).isReady = true ∧
    (run benignEnv (msgInputs [RawMsg.ok startJsonA, RawMsg.bad "oops"] ++
        ConnInput.ready :: msgInputs [RawMsg.ok mediaJsonA])).messageBuffer =
      okMsgs [RawMsg.ok startJsonA, RawMsg.bad "oops"] ∧
    (run benignEnv (msgInputs [RawMsg.ok startJsonA, RawMsg.bad "oops"] ++
        ConnInput.ready :: msgInputs [RawMsg.ok mediaJsonA])).closedWith =
      none :=
  c1_buffered_replay_exactly_once benignEnv
    (by
      intro cb hcb m
      simp only [benignEnv, List.mem_singleton] at hcb
      subst hcb
      rfl)
    [RawMsg.ok startJsonA, RawMsg.bad "oops"] [RawMsg.ok mediaJsonA]

/-- C3: if a `connection` callback fails (for any listener registry and any
raw messages received while waiting), every registered error listener is
notified with the failure, the connection is closed with the
abnormal-closure code 1011, it never becomes ready, and no buffered message
is ever handed to the event dispatcher. -/
theorem c3_connection_listener_failure (env : ListenerEnv)
    (pre : List RawMsg) (e : String) :
    (run env (msgInputs pre ++ [ConnInput.fail e])).isReady = false ∧
    dispatchedOf (run env (msgInputs pre ++ [ConnInput.fail e])).trace = [] ∧
    (run env (msgInputs pre ++ [ConnInput.fail e])).closedWith =
      some (1011, "Connection setup failed") ∧
    ∀ i < env.errorCbs.length,
      TraceEvent.errorCb i e ∈ (run env (msgInputs pre ++ [ConnInput.fail e])).trace := by
  have h1 := run_msgs_notReady env pre initState rfl
  have hrun : run env (msgInputs pre ++ [ConnInput.fail e]) =
      connFailPath env e (runFromState env initState (msgInputs pre)) := by
    unfold run runFromState
    rw [List.foldl_append]
    rfl
  rw [hrun]
  have hp := connFailPath_parts env e (runFromState env initState (msgInputs pre))
  refine ⟨hp.1.trans h1.1, ?_,
    connFailPath_closed env e _ (h1.2.2.1.trans rfl), ?_⟩
  · rw [dispatchedOf_connFailPath, h1.2.2.2.2]
    rfl
  · intro i hi
    rw [connFailPath_trace]
    refine List.mem_append.mpr (Or.inr ?_)
    exact List.mem_map.mpr ⟨i, List.mem_range.mpr hi, rfl⟩

/-- C2, counterexample: the metadata written by a first well-formed `start`
event is overwritten by a second `start` event with different identifiers —
`handleIncomingEvent` re-assigns the fields on every parsed `start`, so the
metadata is not immutable after the first write. -/
theorem c2_second_start_overwrites_metadata :
    getStreamId (run benignEnv [.ready, .msg (.ok startJsonA)]) = some uuidA ∧
    getStreamId (run benignEnv
      [.ready, .msg (.ok startJsonA), .msg (.ok startJsonB)]) = some uuidB ∧
    (some uuidA : Option String) ≠ some uuidB :=
  ⟨rfl, rfl, by decide⟩

/-- C2, as amended: the metadata fields are written on every successfully
parsed `start` event — the first write populates them, and a later `start`
event overwrites them — and are unchanged by every event that is not a
successfully parsed `start`. -/
theorem c2_metadata_written_per_start (env : ListenerEnv) (j : Json)
    (s : ConnState) :
    (∀ ev : StartEvent, StartEventSchema.parse j = .ok ev →
      (handleIncomingEvent env j s).1.metadata =
        some (mdUpdate (s.metadata.getD {}) ev)) ∧
    ((∀ ev : StartEvent, StartEventSchema.parse j ≠ .ok ev) →
      (handleIncomingEvent env j s).1.metadata = s.metadata) :=
  ⟨fun _ h => handleIncomingEvent_metadata_ok env s h,
   fun h => handleIncomingEvent_metadata_err env s h⟩

/-- C2 witness: the first `start` event on a fresh connection populates all
four metadata fields from the parsed event. -/
theorem c2_metadata_written_per_start_witness :
    (handleIncomingEvent benignEnv startJsonA initState).1.metadata =
      some (mdUpdate (initState.metadata.getD {}) startEventA) :=
  (c2_metadata_written_per_start benignEnv startJsonA initState).1
    startEventA (by rfl)

/-- C6: `checkpoint` and `clearAudio` on a non-open socket raise
"WebSocket is not connected"; on an open socket without a stored stream id
they raise "Stream ID not available. Wait for the start event."; with both
preconditions met they serialize exactly `{event, streamId}` (plus `name`
for checkpoint) from the stored stream id. -/
theorem c6_checkpoint_clearAudio_preconditions :
    (∀ (rs : ReadyState) (md : Option ConnectionMetadata) (name : String),
      rs ≠ ReadyState.OPEN →
      checkpoint rs md name = .error "WebSocket is not connected" ∧
      clearAudio rs md = .error "WebSocket is not connected") ∧
    (∀ (md : Option ConnectionMetadata) (name : String),
      hasStreamId md = false →
      checkpoint ReadyState.OPEN md name =
        .error "Stream ID not available. Wait for the start event." ∧
      clearAudio ReadyState.OPEN md =
        .error "Stream ID not available. Wait for the start event.") ∧
    (∀ (m : ConnectionMetadata) (sid name : String),
      m.streamId = some sid → sid ≠ "" →
      checkpoint ReadyState.OPEN (some m) name =
        .ok (.obj [("event", .str "checkpoint"), ("streamId", .str sid),
                   ("name", .str name)]) ∧
      clearAudio ReadyState.OPEN (some m) =
        .ok (.obj [("event", .str "clearAudio"), ("streamId", .str sid)])) := by
  refine ⟨?_, ?_, ?_⟩
  · intro rs md name h
    constructor <;> simp [checkpoint, clearAudio, h]
  · intro md name h
    constructor <;> simp [checkpoint, clearAudio, h]
  · intro m sid name hsid hne
    have hhas : hasStreamId (some m) = true := by
      simp [hasStreamId, hsid, hne]
    constructor <;> simp [checkpoint, clearAudio, hhas, hsid]

/-- C6 witness: a closed socket, an open socket with blank metadata, and an
open socket holding a stream id. -/
theorem c6_checkpoint_clearAudio_preconditions_witness :
    (checkpoint ReadyState.CLOSED (some {}) "cp" =
        .error "WebSocket is not connected" ∧
      clearAudio ReadyState.CLOSED (some {}) =
        .error "WebSocket is not connected") ∧
    (checkpoint ReadyState.OPEN (some {}) "cp" =
        .error "Stream ID not available. Wait for the start event." ∧
      clearAudio ReadyState.OPEN (some {}) =
        .error "Stream ID not available. Wait for the start event.") ∧
    (checkpoint ReadyState.OPEN (some { streamId := some uuidA }) "cp" =
        .ok (.obj [("event", .str "checkpoint"), ("streamId", .str uuidA),
                   ("name", .str "cp")]) ∧
      clearAudio ReadyState.OPEN (some { streamId := some uuidA }) =
        .ok (.obj [("event", .str "clearAudio"), ("streamId", .str uuidA)])) :=
  ⟨c6_checkpoint_clearAudio_preconditions.1 ReadyState.CLOSED (some {}) "cp"
      (by decide),
   c6_checkpoint_clearAudio_preconditions.2.1 (some {}) "cp" (by rfl),
   c6_checkpoint_clearAudio_preconditions.2.2 { streamId := some uuidA }
      uuidA "cp" (by rfl) (by decide)⟩

/-- The plain `forEach` loop hitting its first throwing callback: everything
before it ran, it ran and threw, nothing after it runs, and the exception
propagates. -/
theorem runFrom_first_throw {α : Type} (mk : Nat → TraceEvent) (x : α) :
    ∀ (pre : List (α → Option String)) (bad : α → Option String)
      (post : List (α → Option String)) (i : Nat) (err : String),
      (∀ cb ∈ pre, cb x = none) → bad x = some err →
      runFrom mk i (pre ++ bad :: post) x =
        ((List.range' i (pre.length + 1)).map mk, some err)
  | [], bad, post, i, err, _, hbad => by
      simp [runFrom, hbad, List.range'_succ]
  | cb :: rest, bad, post, i, err, hpre, hbad => by
      have hcb : cb x = none := hpre cb (List.mem_cons_self cb rest)
      have ih := runFrom_first_throw mk x rest bad post (i + 1) err
        (fun c hc => hpre c (List.mem_cons_of_mem cb hc)) hbad
      simp [runFrom, hcb, ih, List.range'_succ]

/-- C7, counterexample: with two registered error listeners whose first
throws, `handleError` invokes only the first one and the exception
propagates out of the notification instead of being swallowed — the second
error listener never runs. -/
theorem c7_throwing_error_listener_not_swallowed :
    handleError c7Env "err" initState =
      (initState.addTrace [TraceEvent.errorCb 0 "err"], some "boom") :=
  rfl

/-- C7, as amended: in the general `handleError` notification path, an
exception thrown by an error listener propagates to the caller and prevents
the remaining error listeners from running (only listeners up to and
including the thrower are invoked); error-listener exceptions are swallowed
individually — every listener runs — only in the connection-setup failure
path. -/
theorem c7_error_notification_throw_behaviour (env : ListenerEnv)
    (s s2 : ConnState) (msg err e : String)
    (pre post : List (String → Option String)) (bad : String → Option String)
    (hcbs : env.errorCbs = pre ++ bad :: post)
    (hpre : ∀ cb ∈ pre, cb msg = none) (hbad : bad msg = some err) :
    handleError env msg s =
      (s.addTrace ((List.range (pre.length + 1)).map
        (fun i => TraceEvent.errorCb i msg)), some err) ∧
    (connFailPath env e s2).trace =
      s2.trace ++
      [.consoleLog ("[PlivoWebSocketServer] Connection setup failed: " ++ e)] ++
      (List.range env.errorCbs.length).map (fun i => TraceEvent.errorCb i e) := by
  refine ⟨?_, connFailPath_trace env e s2⟩
  unfold handleError
  have hlen : env.errorCbs.length > 0 := by
    rw [hcbs]
    simp
  rw [if_pos hlen, hcbs,
    runFrom_first_throw (fun i => TraceEvent.errorCb i msg) msg pre bad post 0
      err hpre hbad,
    ← List.range_eq_range' (pre.length + 1)]

/-- C7 witness: the two-listener registry with a throwing first listener,
applied in both notification paths. -/
theorem c7_error_notification_throw_behaviour_witness :
    handleError c7Env "err" initState =
      (initState.addTrace ((List.range (List.length
          ([] : List (String → Option String)) + 1)).map
        (fun i => TraceEvent.errorCb i "err")), some "boom") ∧
    (connFailPath c7Env "efail" initState).trace =
      initState.trace ++
      [.consoleLog ("[PlivoWebSocketServer] Connection setup failed: " ++ "efail")] ++
      (List.range c7Env.errorCbs.length).map
        (fun i => TraceEvent.errorCb i "efail") :=
  c7_error_notification_throw_behaviour c7Env initState initState "err" "boom"
    "efail" [] [fun _ => none] (fun _ => some "boom") (by rfl)
    (by intro cb hcb; cases hcb) (by rfl)

theorem drain_frame (env : ListenerEnv) :
    ∀ (msgs : List Json) (s : ConnState), FrameDispatch s (drain env msgs s).1
  | [], s => FrameDispatch.refl s
  | m :: rest, s => by
      have hf := handleIncomingEvent_frame env m s
      unfold drain
      split
      · rename_i s1 heq
        rw [heq] at hf
        exact hf.trans (drain_frame env rest s1)
      · rename_i s1 e heq
        rw [heq] at hf
        exact hf

theorem drain_metadata_nonstart (env : ListenerEnv) :
    ∀ (msgs : List Json) (s : ConnState),
      (∀ j ∈ msgs, ∀ ev, StartEventSchema.parse j ≠ .ok ev) →
      (drain env msgs s).1.metadata = s.metadata
  | [], _, _ => rfl
  | m :: rest, s, h => by
      have hm := handleIncomingEvent_metadata_err env s
        (h m (List.mem_cons_self m rest))
      unfold drain
      split
      · rename_i s1 heq
        rw [drain_metadata_nonstart env rest s1
          (fun j hj => h j (List.mem_cons_of_mem m hj))]
        rw [heq] at hm
        exact hm
      · rename_i s1 e heq
        rw [heq] at hm
        exact hm

/-- One lifecycle input that is not a successfully-parsing `start` message
leaves the metadata record untouched and keeps the buffer free of
`start`-parsing messages. -/
theorem step_nonstart (env : ListenerEnv) (s : ConnState) (inp : ConnInput)
    (hin : nonStartInput inp)
    (hbuf : ∀ j ∈ s.messageBuffer, ∀ ev, StartEventSchema.parse j ≠ .ok ev) :
    (step env s inp).metadata = s.metadata ∧
    ∀ j ∈ (step env s inp).messageBuffer, ∀ ev,
      StartEventSchema.parse j ≠ .ok ev := by
  cases inp with
  | msg raw =>
      cases raw with
      | ok j =>
          cases hr : s.isReady with
          | true =>
              rcases hie : handleIncomingEvent env j s with ⟨t1, exc⟩
              have hm := handleIncomingEvent_metadata_err env s hin
              have hf := handleIncomingEvent_frame env j s
              rw [hie] at hm hf
              cases exc with
              | none =>
                  simp only [step, onMessage, hr, if_true, hie]
                  exact ⟨hm, by rw [hf.2.1]; exact hbuf⟩
              | some e1 =>
                  have hm2 := handleError_frame env
                    ("Failed to parse message: " ++ e1) t1
                  rcases hhe : handleError env
                      ("Failed to parse message: " ++ e1) t1 with ⟨t2, exc2⟩
                  rw [hhe] at hm2
                  cases exc2 with
                  | none =>
                      simp only [step, onMessage, hr, if_true, hie, hhe]
                      exact ⟨hm2.2.trans hm,
                        by rw [hm2.1.2.1, hf.2.1]; exact hbuf⟩
                  | some e2 =>
                      simp only [step, onMessage, hr, if_true, hie, hhe]
                      refine ⟨hm2.2.trans hm, ?_⟩
                      rw [show (t2.addTrace
                          [TraceEvent.uncaught e2]).messageBuffer =
                          t2.messageBuffer from rfl, hm2.1.2.1, hf.2.1]
                      exact hbuf
          | false =>
              simp only [step, onMessage, hr]
              refine ⟨rfl, ?_⟩
              intro x hx
              rcases List.mem_append.mp hx with h | h
              · exact hbuf x h
              · rw [List.mem_singleton.mp h]
                exact hin
      | bad e =>
          have hf := handleError_frame env ("Failed to parse message: " ++ e) s
          simp only [step, onMessage]
          split
          · rename_i s1 heq
            rw [heq] at hf
            exact ⟨hf.2, by rw [hf.1.2.1]; exact hbuf⟩
          · rename_i s1 exc heq
            rw [heq] at hf
            refine ⟨hf.2, ?_⟩
            rw [show (s1.addTrace [TraceEvent.uncaught exc]).messageBuffer =
                s1.messageBuffer from rfl, hf.1.2.1]
            exact hbuf
  | ready =>
      have hm := drain_metadata_nonstart env s.messageBuffer
        { s with isReady := true } hbuf
      have hf := drain_frame env s.messageBuffer { s with isReady := true }
      simp only [step]
      unfold readySuccess
      split
      · rename_i s1 heq
        rw [heq] at hm hf
        exact ⟨hm, by rw [hf.2.1]; exact hbuf⟩
      · rename_i s1 e heq
        rw [heq] at hm hf
        have hp := connFailPath_parts env e s1
        refine ⟨hp.2.1.trans hm, ?_⟩
        rw [hp.2.2, hf.2.1]
        exact hbuf
  | fail e =>
      have hp := connFailPath_parts env e s
      simp only [step]
      exact ⟨hp.2.1, by rw [hp.2.2]; exact hbuf⟩

theorem run_nonstart (env : ListenerEnv) :
    ∀ (ins : List ConnInput) (s : ConnState),
      (∀ i ∈ ins, nonStartInput i) →
      (∀ j ∈ s.messageBuffer, ∀ ev, StartEventSchema.parse j ≠ .ok ev) →
      (runFromState env s ins).metadata = s.metadata
  | [], _, _, _ => rfl
  | inp :: rest, s, hins, hbuf => by
      have hs := step_nonstart env s inp (hins inp (List.mem_cons_self inp rest))
        hbuf
      have ih := run_nonstart env rest (step env s inp)
        (fun i hi => hins i (List.mem_cons_of_mem inp hi)) hs.2
      simp only [runFromState, List.foldl_cons]
      exact ih.trans hs.1

/-- C10: on a connection on which no successfully-parsing `start` message has
been processed — whether accepted (empty metadata record) or rejected at
signature validation (no metadata record) — the four metadata accessors all
return the absent value `none`, never raising. -/
theorem c10_accessors_before_start (env : ListenerEnv) (sigOk : Bool)
    (ins : List ConnInput) (h : ∀ i ∈ ins, nonStartInput i) :
    getStreamId (runFromState env (acceptConnection sigOk) ins) = none ∧
    getAccountId (runFromState env (acceptConnection sigOk) ins) = none ∧
    getCallId (runFromState env (acceptConnection sigOk) ins) = none ∧
    getHeaders (runFromState env (acceptConnection sigOk) ins) = none := by
  have hmd : (runFromState env (acceptConnection sigOk) ins).metadata =
      (acceptConnection sigOk).metadata :=
    run_nonstart env ins (acceptConnection sigOk) h
      (by cases sigOk <;> simp [acceptConnection, initState, rejectedState])
  unfold getStreamId getAccountId getCallId getHeaders
  rw [hmd]
  cases sigOk
  · exact ⟨rfl, rfl, rfl, rfl⟩
  · exact ⟨rfl, rfl, rfl, rfl⟩

/-- C10 witness: an accepted connection that became ready and received one
`media` message and one malformed frame. -/
theorem c10_accessors_before_start_witness :
    getStreamId (runFromState benignEnv (acceptConnection true)
      [ConnInput.ready, .msg (.ok mediaJsonA), .msg (.bad "x")]) = none ∧
    getAccountId (runFromState benignEnv (acceptConnection true)
      [ConnInput.ready, .msg (.ok mediaJsonA), .msg (.bad "x")]) = none ∧
    getCallId (runFromState benignEnv (acceptConnection true)
      [ConnInput.ready, .msg (.ok mediaJsonA), .msg (.bad "x")]) = none ∧
    getHeaders (runFromState benignEnv (acceptConnection true)
      [ConnInput.ready, .msg (.ok mediaJsonA), .msg (.bad "x")]) = none :=
  c10_accessors_before_start benignEnv true
    [ConnInput.ready, .msg (.ok mediaJsonA), .msg (.bad "x")]
    (by
      intro i hi
      simp only [List.mem_cons, List.not_mem_nil, or_false] at hi
      rcases hi with rfl | rfl | rfl
      · exact trivial
      · intro ev hev
        rw [show StartEventSchema.parse mediaJsonA =
            Except.error "event: expected literal start" from rfl] at hev
        exact Except.noConfusion hev
      · exact trivial)

theorem addTrace_addTrace (s : ConnState) (t1 t2 : List TraceEvent) :
    (s.addTrace t1).addTrace t2 = s.addTrace (t1 ++ t2) := by
  simp [ConnState.addTrace]

/-- On a malformed value the dispatcher switch either notifies the error path
directly (unknown event) or throws the schema error out of the switch. -/
theorem dispatchBody_malformed {env : ListenerEnv} (hErr : ErrCbsBenign env)
    (j : Json) (s : ConnState) (hmal : isMalformed j = true) :
    (∃ msg, dispatchBody env j s = (s.addTrace (errNotifyTrace env msg), none)) ∨
    (∃ e, dispatchBody env j s = (s, some e)) := by
  unfold dispatchBody
  split
  · rename_i heq
    rw [isMalformed, heq] at hmal
    have hmal2 : (!(StartEventSchema.parse j).isOk) = true := hmal
    cases hp : StartEventSchema.parse j with
    | error e =>
        exact Or.inr ⟨e, rfl⟩
    | ok ev =>
        rw [hp] at hmal2
        simp [Except.isOk, Except.toBool] at hmal2
  · rename_i heq
    rw [isMalformed, heq] at hmal
    have hmal2 : (!(MediaEventSchema.parse j).isOk) = true := hmal
    cases hp : MediaEventSchema.parse j with
    | error e =>
        exact Or.inr ⟨e, rfl⟩
    | ok ev =>
        rw [hp] at hmal2
        simp [Except.isOk, Except.toBool] at hmal2
  · rename_i heq
    rw [isMalformed, heq] at hmal
    have hmal2 : (!(DTMFEventSchema.parse j).isOk) = true := hmal
    cases hp : DTMFEventSchema.parse j with
    | error e =>
        exact Or.inr ⟨e, rfl⟩
    | ok ev =>
        rw [hp] at hmal2
        simp [Except.isOk, Except.toBool] at hmal2
  · rename_i heq
    rw [isMalformed, heq] at hmal
    have hmal2 : (!(PlayedStreamEventSchema.parse j).isOk) = true := hmal
    cases hp : PlayedStreamEventSchema.parse j with
    | error e =>
        exact Or.inr ⟨e, rfl⟩
    | ok ev =>
        rw [hp] at hmal2
        simp [Except.isOk, Except.toBool] at hmal2
  · rename_i heq
    rw [isMalformed, heq] at hmal
    have hmal2 : (!(ClearedAudioEventSchema.parse j).isOk) = true := hmal
    cases hp : ClearedAudioEventSchema.parse j with
    | error e =>
        exact Or.inr ⟨e, rfl⟩
    | ok ev =>
        rw [hp] at hmal2
        simp [Except.isOk, Except.toBool] at hmal2
  · rw [handleError_benign hErr]
    exact Or.inl ⟨_, rfl⟩

/-- C5, counterexample: a buffered malformed message (unknown `event`) whose
error notification hits a throwing error listener: the exception escapes the
replay loop and the code closes the connection with 1011 — the connection
does not remain open, so the failure is not isolated to that message. -/
theorem c5_malformed_with_throwing_error_listener_closes :
    isMalformed unknownJson1 = true ∧
    (run throwingErrEnv [.msg (.ok unknownJson1), .ready]).closedWith =
      some (1011, "Connection setup failed") :=
  ⟨rfl, rfl⟩

/-- C5, as amended: provided no registered error listener throws, every
malformed raw message is isolated: malformed JSON and malformed payloads
(missing field, wrong type, unknown `event`) only produce an error-listener
notification (or a console log when none are registered) — no other listener
kind fires for that message, the connection state (buffer, readiness, open
state, metadata) is unchanged, and processing of subsequent messages
continues from an identical state. -/
theorem c5_malformed_isolated (env : ListenerEnv) (hErr : ErrCbsBenign env)
    (s : ConnState) :
    (∀ e, onMessage env (.bad e) s =
      (s.addTrace (errNotifyTrace env ("Failed to parse message: " ++ e)),
       none)) ∧
    (∀ j, isMalformed j = true → ∃ msg,
      handleIncomingEvent env j s =
        (s.addTrace (TraceEvent.dispatched j :: errNotifyTrace env msg),
         none)) := by
  constructor
  · intro e
    simp only [onMessage]
    exact handleError_benign hErr _ s
  · intro j hmal
    have hb := dispatchBody_malformed hErr j
      (s.addTrace [TraceEvent.dispatched j]) hmal
    unfold handleIncomingEvent
    rcases hb with ⟨msg, hm⟩ | ⟨e, hm⟩
    · refine ⟨msg, ?_⟩
      rw [hm, addTrace_addTrace]
      rfl
    · refine ⟨"Failed to handle event: " ++ e, ?_⟩
      rw [hm]
      show handleError env ("Failed to handle event: " ++ e)
          (s.addTrace [TraceEvent.dispatched j]) = _
      rw [handleError_benign hErr, addTrace_addTrace]
      rfl

/-- C5 witness: a malformed JSON frame and an unknown-event payload, with a
benign error listener registered. -/
theorem c5_malformed_isolated_witness :
    onMessage benignEnv (.bad "Unexpected token u") initState =
      (initState.addTrace (errNotifyTrace benignEnv
        ("Failed to parse message: " ++ "Unexpected token u")), none) ∧
    ∃ msg, handleIncomingEvent benignEnv unknownJson1 initState =
      (initState.addTrace
        (TraceEvent.dispatched unknownJson1 :: errNotifyTrace benignEnv msg),
       none) :=
  ⟨(c5_malformed_isolated benignEnv
      (by
        intro cb hcb m
        simp only [benignEnv, List.mem_singleton] at hcb
        subst hcb
        rfl)
      initState).1 "Unexpected token u",
   (c5_malformed_isolated benignEnv
      (by
        intro cb hcb m
        simp only [benignEnv, List.mem_singleton] at hcb
        subst hcb
        rfl)
      initState).2 unknownJson1 (by rfl)⟩

theorem dispatchBody_media_ok {data : Json} {ev : MediaEvent}
    (env : ListenerEnv) (s : ConnState)
    (hok : MediaEventSchema.parse data = .ok ev)
    (hev : data.getField "event" = some (.str "media")) :
    dispatchBody env data s =
      (s.addTrace (runFrom TraceEvent.mediaCb 0 env.mediaCbs ev).1,
       (runFrom TraceEvent.mediaCb 0 env.mediaCbs ev).2) := by
  unfold dispatchBody
  rw [hev, hok]
  rfl

/-- C4, counterexample: two media listeners are registered and the first one
throws on a valid `media` event; the dispatcher's plain `forEach` lets the
exception abort the loop, so the second listener never runs for that event —
the trace records the dispatch, listener 0, and the error-path log only. -/
theorem c4_listener_throw_stops_remaining :
    (run c4Env [.ready, .msg (.ok mediaJsonA)]).trace =
      [TraceEvent.dispatched mediaJsonA, TraceEvent.mediaCb 0,
       TraceEvent.consoleLog
         "[PlivoWebSocketServer] Error: Failed to handle event: boom"] :=
  rfl

/-- C4, as amended: a failure thrown by one listener during the dispatch of
an event is caught at the per-message level and routed to the error path, so
it does not affect processing of the next inbound message (the resulting
state differs from the pre-dispatch state only in its trace, and no
exception escapes); but it does prevent the remaining listeners for that
same event from running — the `forEach` loop stops at the first thrower
(shown here for the `media` registry; the other four registries are
dispatched by the same `runFrom` loop). -/
theorem c4_listener_failure_per_event (env : ListenerEnv)
    (hErr : ErrCbsBenign env) (data : Json) (s : ConnState) (ev : MediaEvent)
    (pre post : List (MediaEvent → Option String))
    (bad : MediaEvent → Option String) (err : String)
    (hok : MediaEventSchema.parse data = .ok ev)
    (hev : data.getField "event" = some (.str "media"))
    (hcbs : env.mediaCbs = pre ++ bad :: post)
    (hpre : ∀ cb ∈ pre, cb ev = none) (hbad : bad ev = some err) :
    runFrom TraceEvent.mediaCb 0 (pre ++ bad :: post) ev =
      ((List.range' 0 (pre.length + 1)).map TraceEvent.mediaCb, some err) ∧
    handleIncomingEvent env data s =
      (s.addTrace (TraceEvent.dispatched data ::
        (((List.range (pre.length + 1)).map TraceEvent.mediaCb) ++
          errNotifyTrace env ("Failed to handle event: " ++ err))), none) := by
  have hrun := runFrom_first_throw TraceEvent.mediaCb ev pre bad post 0 err
    hpre hbad
  refine ⟨hrun, ?_⟩
  have hdb := dispatchBody_media_ok env
    (s.addTrace [TraceEvent.dispatched data]) hok hev
  rw [hcbs, hrun] at hdb
  unfold handleIncomingEvent
  rw [hdb]
  show handleError env ("Failed to handle event: " ++ err)
      ((s.addTrace [TraceEvent.dispatched data]).addTrace
        ((List.range' 0 (pre.length + 1)).map TraceEvent.mediaCb)) = _
  rw [handleError_benign hErr, addTrace_addTrace, addTrace_addTrace,
    ← List.range_eq_range' (pre.length + 1)]
  rfl

/-- C4 witness: two media listeners, the first always throwing, dispatching
a concrete valid `media` event. -/
theorem c4_listener_failure_per_event_witness :
    runFrom TraceEvent.mediaCb 0
      ([] ++ (fun _ => some "boom") ::
        [(fun _ => none : MediaEvent → Option String)]) mediaEventA =
      ((List.range' 0 (List.length ([] : List (MediaEvent → Option String)) + 1)).map
        TraceEvent.mediaCb, some "boom") ∧
    handleIncomingEvent c4Env mediaJsonA initState =
      (initState.addTrace (TraceEvent.dispatched mediaJsonA ::
        (((List.range (List.length ([] : List (MediaEvent → Option String)) + 1)).map
            TraceEvent.mediaCb) ++
          errNotifyTrace c4Env ("Failed to handle event: " ++ "boom"))),
       none) :=
  c4_listener_failure_per_event c4Env
    (by intro cb hcb m; cases hcb)
    mediaJsonA initState mediaEventA [] [fun _ => none] (fun _ => some "boom")
    "boom" (by rfl) (by rfl) (by rfl)
    (by intro cb hcb; cases hcb) (by rfl)

theorem b64Val_b64Char : ∀ n, n < 64 → b64Val (b64Char n) = some n := by
  decide

/-- Round trip of the Node base64 codec on byte sequences. -/
theorem base64_decode_encode :
    ∀ (bs : List Nat), (∀ b ∈ bs, b < 256) →
      base64Decode (base64Encode bs) = bs
  | [], _ => rfl
  | [a], h => by
      have ha : a < 256 := h a (by simp)
      have h0 : b64Val (b64Char (a / 4)) = some (a / 4) :=
        b64Val_b64Char _ (by omega)
      have h1 : b64Val (b64Char (a % 4 * 16)) = some (a % 4 * 16) :=
        b64Val_b64Char _ (by omega)
      unfold base64Encode base64Decode
      simp only [List.filterMap_cons, h0, h1,
        show b64Val '=' = none from rfl, List.filterMap_nil]
      unfold sextetsToBytes
      have e0 : a / 4 * 4 + a % 4 * 16 / 16 = a := by omega
      rw [e0]
  | [a, b], h => by
      have ha : a < 256 := h a (by simp)
      have hb : b < 256 := h b (by simp)
      have h0 : b64Val (b64Char (a / 4)) = some (a / 4) :=
        b64Val_b64Char _ (by omega)
      have h1 : b64Val (b64Char (a % 4 * 16 + b / 16)) =
          some (a % 4 * 16 + b / 16) := b64Val_b64Char _ (by omega)
      have h2 : b64Val (b64Char (b % 16 * 4)) = some (b % 16 * 4) :=
        b64Val_b64Char _ (by omega)
      unfold base64Encode base64Decode
      simp only [List.filterMap_cons, h0, h1, h2,
        show b64Val '=' = none from rfl, List.filterMap_nil]
      unfold sextetsToBytes
      have e0 : a / 4 * 4 + (a % 4 * 16 + b / 16) / 16 = a := by omega
      have e1 : (a % 4 * 16 + b / 16) % 16 * 16 + b % 16 * 4 / 4 = b := by
        omega
      rw [e0, e1]
  | a :: b :: c :: rest, h => by
      have ha : a < 256 := h a (by simp)
      have hb : b < 256 := h b (by simp)
      have hc : c < 256 := h c (by simp)
      have ih := base64_decode_encode rest
        (fun x hx => h x (by simp [hx]))
      have h0 : b64Val (b64Char (a / 4)) = some (a / 4) :=
        b64Val_b64Char _ (by omega)
      have h1 : b64Val (b64Char (a % 4 * 16 + b / 16)) =
          some (a % 4 * 16 + b / 16) := b64Val_b64Char _ (by omega)
      have h2 : b64Val (b64Char (b % 16 * 4 + c / 64)) =
          some (b % 16 * 4 + c / 64) := b64Val_b64Char _ (by omega)
      have h3 : b64Val (b64Char (c % 64)) = some (c % 64) :=
        b64Val_b64Char _ (by omega)
      unfold base64Decode at ih ⊢
      unfold base64Encode
      simp only [List.filterMap_cons, h0, h1, h2, h3]
      unfold sextetsToBytes
      have e0 : a / 4 * 4 + (a % 4 * 16 + b / 16) / 16 = a := by omega
      have e1 : (a % 4 * 16 + b / 16) % 16 * 16 + (b % 16 * 4 + c / 64) / 4 =
          b := by omega
      have e2 : (b % 16 * 4 + c / 64) % 4 * 64 + c % 64 = c := by omega
      rw [e0, e1, e2, ih]

/-- C8: a raw byte sequence encoded to base64 by `playAudio` and decoded by
the `media` event's `getRawMedia` accessor round-trips to the identical byte
sequence; `playAudio` on an open socket sends exactly that encoded payload. -/
theorem c8_playAudio_getRawMedia_roundtrip (bs : List Nat)
    (h : ∀ b ∈ bs, b < 256) (e : MediaEvent) (ct : String) (sr : Int)
    (he : e.media.payload = String.mk (base64Encode bs)) :
    e.getRawMedia = bs ∧
    playAudio ReadyState.OPEN ct sr bs =
      some (.obj [("event", .str "playAudio"),
                  ("media", .obj
                    [("contentType", .str ct), ("sampleRate", .num sr),
                     ("payload", .str (String.mk (base64Encode bs)))])]) := by
  constructor
  · unfold MediaEvent.getRawMedia
    rw [he]
    rw [show (String.mk (base64Encode bs)).toList = base64Encode bs from rfl]
    exact base64_decode_encode bs h
  · rfl

/-- C8 witness: the three bytes `[77, 97, 0]` through a `media` event
carrying their `playAudio` encoding. -/
theorem c8_playAudio_getRawMedia_roundtrip_witness :
    ({ mediaEventA with
        media := { mediaEventA.media with
          payload := String.mk (base64Encode [77, 97, 0]) } } :
      MediaEvent).getRawMedia = [77, 97, 0] ∧
    playAudio ReadyState.OPEN "audio/x-l16" 8000 [77, 97, 0] =
      some (.obj [("event", .str "playAudio"),
                  ("media", .obj
                    [("contentType", .str "audio/x-l16"),
                     ("sampleRate", .num 8000),
                     ("payload", .str (String.mk (base64Encode [77, 97, 0])))])]) :=
  c8_playAudio_getRawMedia_roundtrip [77, 97, 0] (by decide)
    ({ mediaEventA with
        media := { mediaEventA.media with
          payload := String.mk (base64Encode [77, 97, 0]) } })
    "audio/x-l16" 8000 (by rfl)

theorem exOk_bind {ε α β : Type} (a : α) (f : α → Except ε β) :
    (Except.ok a >>= f) = f a := rfl

theorem exError_bind {ε α β : Type} (e : ε) (f : α → Except ε β) :
    ((Except.error e : Except ε α) >>= f) = Except.error e := rfl

theorem exIsOk_ok {ε α : Type} (a : α) :
    (Except.ok a : Except ε α).isOk = true := rfl

theorem exIsOk_error {ε α : Type} (e : ε) :
    (Except.error e : Except ε α).isOk = false := rfl

theorem asString_isOk (p : String) (o : Option Json) :
    (asString p o).isOk = isStringJ o := by
  cases o with
  | none => rfl
  | some v => cases v <;> rfl

theorem asNumber_isOk (p : String) (o : Option Json) :
    (asNumber p o).isOk = isNumberJ o := by
  cases o with
  | none => rfl
  | some v => cases v <;> rfl

theorem asUuid_isOk (p : String) (o : Option Json) :
    (asUuid p o).isOk = isUuidJ o := by
  cases o with
  | none => rfl
  | some v =>
      cases v with
      | str s =>
          show (if isUuid s then (Except.ok s : Except String String)
            else Except.error (p ++ ": invalid UUID")).isOk = isUuid s
          cases hu : isUuid s <;> simp [hu, exIsOk_ok, exIsOk_error]
      | null => rfl
      | bool b => rfl
      | num n => rfl
      | arr xs => rfl
      | obj fields => rfl

theorem asLiteralStr_isOk (p lit : String) (o : Option Json) :
    (asLiteralStr p lit o).isOk = isLiteralJ lit o := by
  cases o with
  | none => rfl
  | some v =>
      cases v with
      | str s =>
          show (if s = lit then (Except.ok s : Except String String)
            else Except.error (p ++ ": expected literal " ++ lit)).isOk =
            decide (s = lit)
          by_cases hs : s = lit <;> simp [hs, exIsOk_ok, exIsOk_error]
      | null => rfl
      | bool b => rfl
      | num n => rfl
      | arr xs => rfl
      | obj fields => rfl

theorem mapM_str_isOk (p : String) :
    ∀ (xs : List Json),
      (xs.mapM fun x =>
        match x with
        | Json.str s => (Except.ok s : Except String String)
        | _ => Except.error (p ++ ": expected array of strings")).isOk =
      xs.all fun x =>
        match x with
        | Json.str _ => true
        | _ => false
  | [] => rfl
  | x :: xs => by
      rw [List.mapM_cons]
      have ih := mapM_str_isOk p xs
      cases x with
      | str s =>
          rw [show (match Json.str s with
              | Json.str s => (Except.ok s : Except String String)
              | _ => Except.error (p ++ ": expected array of strings")) =
              Except.ok s from rfl, exOk_bind]
          cases hm : xs.mapM fun x =>
              match x with
              | Json.str s => (Except.ok s : Except String String)
              | _ => Except.error (p ++ ": expected array of strings") with
          | error e =>
              rw [hm, exIsOk_error] at ih
              rw [exError_bind, exIsOk_error]
              simp [List.all_cons, ← ih]
          | ok l =>
              rw [hm, exIsOk_ok] at ih
              rw [exOk_bind]
              simp [List.all_cons, ← ih, pure, Except.pure, exIsOk_ok]
      | null =>
          simp [List.all_cons, exError_bind, exIsOk_error]
      | bool b =>
          simp [List.all_cons, exError_bind, exIsOk_error]
      | num n =>
          simp [List.all_cons, exError_bind, exIsOk_error]
      | arr ys =>
          simp [List.all_cons, exError_bind, exIsOk_error]
      | obj fields =>
          simp [List.all_cons, exError_bind, exIsOk_error]

theorem asStringList_isOk (p : String) (o : Option Json) :
    (asStringList p o).isOk = isStringArrayJ o := by
  cases o with
  | none => rfl
  | some v =>
      cases v with
      | arr xs => exact mapM_str_isOk p xs
      | str s => rfl
      | null => rfl
      | bool b => rfl
      | num n => rfl
      | obj fields => rfl

/-- C9 (as amended), characterization: `StartEventSchema` validation succeeds
exactly when the decoded value satisfies the spec-side field conditions
(`event` the literal `start`, UUID-format `callId`/`streamId`, string
`accountId`, string array `tracks`, string `mediaFormat.encoding`, numeric
`mediaFormat.sampleRate` with no positivity constraint, numeric
`sequenceNumber`, string `extra_headers`); a failing value is rejected with
an error string naming the offending field. -/
theorem c9_start_schema_characterization (j : Json) :
    (StartEventSchema.parse j).isOk = startPayloadSpec j := by
  unfold StartEventSchema.parse startPayloadSpec
  cases h1 : asLiteralStr "event" "start" (j.getField "event") with
  | error e1 =>
      have hh1 := asLiteralStr_isOk "event" "start" (j.getField "event")
      rw [h1, exIsOk_error] at hh1
      simp only [exError_bind, exIsOk_error, ← hh1]
      simp
  | ok a1 =>
      have hh1 := asLiteralStr_isOk "event" "start" (j.getField "event")
      rw [h1, exIsOk_ok] at hh1
      simp only [exOk_bind, ← hh1, Bool.true_and]
      cases h2 : asNumber "sequenceNumber" (j.getField "sequenceNumber") with
      | error e2 =>
          have hh2 := asNumber_isOk "sequenceNumber" (j.getField "sequenceNumber")
          rw [h2, exIsOk_error] at hh2
          simp only [exError_bind, exIsOk_error, ← hh2]
          simp
      | ok a2 =>
          have hh2 := asNumber_isOk "sequenceNumber" (j.getField "sequenceNumber")
          rw [h2, exIsOk_ok] at hh2
          simp only [exOk_bind, ← hh2, Bool.true_and]
          cases h3 : asUuid "start.callId" (((j.getField "start").getD .null).getField "callId") with
          | error e3 =>
              have hh3 := asUuid_isOk "start.callId" (((j.getField "start").getD .null).getField "callId")
              rw [h3, exIsOk_error] at hh3
              simp only [exError_bind, exIsOk_error, ← hh3]
              simp
          | ok a3 =>
              have hh3 := asUuid_isOk "start.callId" (((j.getField "start").getD .null).getField "callId")
              rw [h3, exIsOk_ok] at hh3
              simp only [exOk_bind, ← hh3, Bool.true_and]
              cases h4 : asUuid "start.streamId" (((j.getField "start").getD .null).getField "streamId") with
              | error e4 =>
                  have hh4 := asUuid_isOk "start.streamId" (((j.getField "start").getD .null).getField "streamId")
                  rw [h4, exIsOk_error] at hh4
                  simp only [exError_bind, exIsOk_error, ← hh4]
                  simp
              | ok a4 =>
                  have hh4 := asUuid_isOk "start.streamId" (((j.getField "start").getD .null).getField "streamId")
                  rw [h4, exIsOk_ok] at hh4
                  simp only [exOk_bind, ← hh4, Bool.true_and]
                  cases h5 : asString "start.accountId" (((j.getField "start").getD .null).getField "accountId") with
                  | error e5 =>
                      have hh5 := asString_isOk "start.accountId" (((j.getField "start").getD .null).getField "accountId")
                      rw [h5, exIsOk_error] at hh5
                      simp only [exError_bind, exIsOk_error, ← hh5]
                      simp
                  | ok a5 =>
                      have hh5 := asString_isOk "start.accountId" (((j.getField "start").getD .null).getField "accountId")
                      rw [h5, exIsOk_ok] at hh5
                      simp only [exOk_bind, ← hh5, Bool.true_and]
                      cases h6 : asStringList "start.tracks" (((j.getField "start").getD .null).getField "tracks") with
                      | error e6 =>
                          have hh6 := asStringList_isOk "start.tracks" (((j.getField "start").getD .null).getField "tracks")
                          rw [h6, exIsOk_error] at hh6
                          simp only [exError_bind, exIsOk_error, ← hh6]
                          simp
                      | ok a6 =>
                          have hh6 := asStringList_isOk "start.tracks" (((j.getField "start").getD .null).getField "tracks")
                          rw [h6, exIsOk_ok] at hh6
                          simp only [exOk_bind, ← hh6, Bool.true_and]
                          cases h7 : asString "start.mediaFormat.encoding" (((((j.getField "start").getD .null).getField "mediaFormat").getD .null).getField "encoding") with
                          | error e7 =>
                              have hh7 := asString_isOk "start.mediaFormat.encoding" (((((j.getField "start").getD .null).getField "mediaFormat").getD .null).getField "encoding")
                              rw [h7, exIsOk_error] at hh7
                              simp only [exError_bind, exIsOk_error, ← hh7]
                              simp
                          | ok a7 =>
                              have hh7 := asString_isOk "start.mediaFormat.encoding" (((((j.getField "start").getD .null).getField "mediaFormat").getD .null).getField "encoding")
                              rw [h7, exIsOk_ok] at hh7
                              simp only [exOk_bind, ← hh7, Bool.true_and]
                              cases h8 : asNumber "start.mediaFormat.sampleRate" (((((j.getField "start").getD .null).getField "mediaFormat").getD .null).getField "sampleRate") with
                              | error e8 =>
                                  have hh8 := asNumber_isOk "start.mediaFormat.sampleRate" (((((j.getField "start").getD .null).getField "mediaFormat").getD .null).getField "sampleRate")
                                  rw [h8, exIsOk_error] at hh8
                                  simp only [exError_bind, exIsOk_error, ← hh8]
                                  simp
                              | ok a8 =>
                                  have hh8 := asNumber_isOk "start.mediaFormat.sampleRate" (((((j.getField "start").getD .null).getField "mediaFormat").getD .null).getField "sampleRate")
                                  rw [h8, exIsOk_ok] at hh8
                                  simp only [exOk_bind, ← hh8, Bool.true_and]
                                  cases h9 : asString "extra_headers" (j.getField "extra_headers") with
                                  | error e9 =>
                                      have hh9 := asString_isOk "extra_headers" (j.getField "extra_headers")
                                      rw [h9, exIsOk_error] at hh9
                                      simp only [exError_bind, exIsOk_error, ← hh9]
                                  | ok a9 =>
                                      have hh9 := asString_isOk "extra_headers" (j.getField "extra_headers")
                                      rw [h9, exIsOk_ok] at hh9
                                      simp only [exOk_bind, ← hh9, Bool.true_and]
                                      rfl

/-- C9, counterexample: a `start` payload whose `mediaFormat.sampleRate` is
`-1` is accepted by `StartEventSchema` — the schema uses a plain number
check, so validation does not require a positive sample rate as the claim
states. -/
theorem c9_negative_sample_rate_accepted :
    StartEventSchema.parse negRateStartJson =
      .ok { sequenceNumber := 1,
            start := { callId := uuidCall, streamId := uuidA,
                       accountId := "MA_NEG", tracks := ["inbound"],
                       mediaFormat := { encoding := "audio/x-mulaw",
                                        sampleRate := -1 } },
            extra_headers := "" } :=
  rfl
